import Mathlib

/-!
Verification of the recipe-robot generation engine
(`scripts/recipe_robot_lib/recipe_generator.py` and
`scripts/recipe_robot_lib/recipe.py`) against its natural-language
specification.

The Python module is shallowly embedded: the heterogeneous `facts`
dictionary becomes a structure of `Option` fields (a `facts["k"]`
lookup on a possibly-absent key is a `match` that fails with
`PyErr.keyError`), plist values become the inductive `Value`, and every
generation rule is a total Lean function returning
`Except PyErr (Facts × Recipe)`.  External collaborators (the
filesystem, `autopkg repo-list`, icon extraction) enter as explicit
parameters or are modelled from the spec, as noted on each definition.
-/

/-- Python exceptions that the embedded code can raise:
`keyError k` models a `KeyError` on dictionary key `k`, `typeError`
models a `TypeError` (e.g. calling a function with the wrong number of
arguments), `roboError` models the module's own `RoboError`, and
`nameError` models a `NameError` on an unbound local. -/
inductive PyErr where
  | keyError : String → PyErr
  | typeError : String → PyErr
  | roboError : String → PyErr
  | nameError : String → PyErr
deriving DecidableEq

/-- A plist-style value, as stored in a recipe's `Input` mapping and in
processor argument dictionaries. -/
inductive Value where
  | str : String → Value
  | bool : Bool → Value
  | list : List Value → Value
  | dict : List (String × Value) → Value

/-- Models a Python dictionary lookup `d[k]` on an optional field:
absent key means `KeyError`. -/
def need {α : Type} (o : Option α) (key : String) : Except PyErr α :=
  match o with
  | some v => Except.ok v
  | none => Except.error (PyErr.keyError key)

/-- Python dict assignment `m[k] = v` on an association list that keeps
insertion order: update in place if the key exists, append otherwise. -/
def setKV (m : List (String × Value)) (k : String) (v : Value) :
    List (String × Value) :=
  if m.any (fun p => p.1 = k) then
    m.map (fun p => if p.1 = k then (k, v) else p)
  else m ++ [(k, v)]

/-- Python dict lookup `m.get(k)` on an association list. -/
def getKV (m : List (String × Value)) (k : String) : Option Value :=
  (m.find? (fun p => p.1 = k)).map (fun p => p.2)

/-- Models Python `str.replace(pat, rep)` for the one-character
patterns (`" "` and `"/"`) this module uses: every occurrence of the
character is replaced by `rep`. -/
def pyReplace (s : String) (pat rep : String) : String :=
  String.mk (s.data.foldr
    (fun c acc => if String.mk [c] = pat then rep.data ++ acc else c :: acc) [])

/-- Models `os.path.join(a, b)` for the relative second components used
in this module. -/
def os_path_join (a b : String) : String := a ++ "/" ++ b

/-- Models `os.path.expanduser`; no path handled by the claims below
contains a tilde, so expansion is the identity. -/
def os_path_expanduser (s : String) : String := s

/-- One entry of a recipe's `Process` list.  The Python code emits
dictionaries with a `"Processor"` key, usually an `"Arguments"` key
(absent for `EndOfCheckPhase`), and occasionally a
`"SharedProcessorRepoURL"` key. -/
structure ProcStep where
  Processor : String
  Arguments : Option (List (String × Value)) := none
  SharedProcessorRepoURL : Option String := none

/-- The `keys` sub-dictionary of a `Recipe`
(`recipe.py`, `Recipe.__init__`), plus the `Description` and
`ParentRecipe` keys that generation rules add. -/
structure RecipeKeys where
  Identifier : String := ""
  MinimumVersion : String := "0.5.0"
  Input : List (String × Value) := [("NAME", Value.str "")]
  Process : List ProcStep := []
  Comment : String := ""
  Description : Option String := none
  ParentRecipe : Option String := none

/-- Modelled from the spec: `__version__` lives in `tools.py`, which is
not under `src/`; only the surrounding comment text is fixed by the
source. -/
def robo_version : String := "0"

/-- The `Comment` key seeded by `Recipe.__init__`. -/
def recipe_comment : String :=
  "Created with Recipe Robot v" ++ robo_version ++
  " (https://github.com/homebysix/recipe-robot)"

/-- An AutoPkg recipe (`recipe.py`, class `Recipe`): its type tag,
description, `preferred`/`existing` flags, filename (set by the
dispatcher) and the `keys` plist. -/
structure Recipe where
  rtype : String
  description : String
  preferred : Bool := true
  existing : Bool := false
  filename : String := ""
  keys : RecipeKeys := {Comment := recipe_comment}

/-- `Recipe.__init__`: a fresh recipe of the given type. -/
def Recipe.init (t desc : String) : Recipe :=
  { rtype := t, description := desc, preferred := true, existing := false,
    filename := "", keys := {Comment := recipe_comment} }

/-- `Recipe.write` (recipe.py lines 58-61): the plist is serialized to
`path` only when the `Process` list is non-empty.  The filesystem write
is modelled as the value that would be written. -/
def Recipe.write (r : Recipe) (path : String) : Option (String × RecipeKeys) :=
  if r.keys.Process.length > 0 then some (path, r.keys) else none

/-- The static catalog of the nine recipe types
(`recipe.py`, `Recipes.__init__`). -/
def recipes_meta : List (String × String) :=
  [("download", "Downloads an app in whatever format the developer provides."),
   ("munki", "Imports into your Munki repository."),
   ("pkg", "Creates a standard pkg installer file."),
   ("install", "Installs the app on the computer running AutoPkg."),
   ("jss", "Imports into your Casper JSS and creates necessary groups, policies, etc."),
   ("absolute", "Imports into your Absolute Manage server."),
   ("sccm", "Creates a cmmac package for deploying via Microsoft SCCM."),
   ("ds", "Imports into your DeployStudio Packages folder."),
   ("filewave", "Imports a fileset into your FileWave server.")]

/-- The `Recipes` container: one fresh `Recipe` per catalog entry. -/
def default_recipes : List Recipe :=
  recipes_meta.map (fun p => Recipe.init p.1 p.2)

/-- An element of the `facts["recipes"]` list.  The list initially
holds `Recipe` objects; `build_recipes` later appends destination-path
strings to the same list. -/
inductive RecipesEntry where
  | robj : Recipe → RecipesEntry
  | path : String → RecipesEntry

/-- The facts dictionary.  Every key the generator reads is a field;
`Option` marks keys that may be absent (a direct `facts[k]` lookup on
an absent key raises `KeyError`).  `warnings`, `reminders` and
`recipes` are the always-present list-valued keys, and
`args_ignore_existing` models `facts["args"].ignore_existing`.
`user_agent` models the `"user-agent"` key. -/
structure Facts where
  app_name : Option String := none
  app_file : Option String := none
  app_path : Option String := none
  app_name_key : Option String := none
  developer : Option String := none
  description : Option String := none
  bundle_id : Option String := none
  is_from_app_store : Option Bool := none
  sparkle_feed : Option String := none
  sparkle_provides_version : Option Bool := none
  github_repo : Option String := none
  sourceforge_id : Option String := none
  download_url : Option String := none
  download_filename : Option String := none
  download_format : Option String := none
  codesign_reqs : Option String := none
  codesign_authorities : Option (List String) := none
  version_key : Option String := none
  blocking_applications : Option (List String) := none
  user_agent : Option String := none
  icon_path : Option String := none
  recipe_dest_dir : Option String := none
  warnings : List String := []
  reminders : List String := []
  recipes : List RecipesEntry := []
  args_ignore_existing : Bool := true

/-- The preferences dictionary.  The always-configured keys are total
fields; `FollowOfficialJSSRecipesFormat` and `DSPackagesPath` are
`Option` because the code reads them both with `.get` and with a direct
lookup.  `recipeIdentifierBase` models the `RecipeIdentifierPrefix`
preference. -/
structure Prefs where
  recipeIdentifierBase : String
  RecipeCreateLocation : String
  RecipeTypes : List String
  FollowOfficialJSSRecipesFormat : Option Bool := none
  DSPackagesPath : Option String := none
  RecipeCreateCount : Nat := 0

/-- `SUPPORTED_IMAGE_FORMATS`.  Modelled from the spec: the format
family constants live in `tools.py`, which is not under `src/`; the
spec's scenarios identify `dmg` as an image format. -/
def SUPPORTED_IMAGE_FORMATS : List String := ["dmg"]

/-- `SUPPORTED_ARCHIVE_FORMATS`.  Modelled from the spec: `tools.py` is
not under `src/`; the spec's scenarios identify `zip` as an archive
format. -/
def SUPPORTED_ARCHIVE_FORMATS : List String := ["zip"]

/-- `SUPPORTED_INSTALL_FORMATS`.  Modelled from the spec: `tools.py` is
not under `src/`; the spec identifies `pkg` as the installer-package
format. -/
def SUPPORTED_INSTALL_FORMATS : List String := ["pkg"]

/-- Modelled from the spec: `create_existing_recipe_list` lives in
`tools.py` (not under `src/`); it only annotates facts with information
about already-existing recipes and touches none of the keys the
generator branches on, so it is modelled as the identity. -/
def create_existing_recipe_list (facts : Facts) : Facts := facts

/-- Modelled from the spec: `extract_app_icon` (tools.py, not under
`src/`) writes a PNG to disk; it is an out-of-scope collaborator with
no effect on facts. -/
def extract_app_icon (facts : Facts) (_path : String) : Facts := facts

/-- RoboError text raised by `generate_recipes` when `app_name` is
absent. -/
def msg_no_app_name : String :=
  "I wasn't able to determine the name of this app, so I can't make any recipes."

/-- RoboError text for an empty preferred-type list
(`raise_if_recipes_cannot_be_generated`). -/
def msg_no_preferred : String := "Sorry, no recipes available to generate."

/-- RoboError text for a missing download method. -/
def msg_no_download_method : String :=
  "Sorry, I don't know how to download this app. Maybe try another angle? If you provided an app, try providing the Sparkle feed for the app instead. Or maybe the app's developers offer a direct download URL on their website."

/-- RoboError text for an unknown download format. -/
def msg_no_download_format : String :=
  "Sorry, I can't tell what format to download this app in. Maybe try another angle? If you provided an app, try providing the Sparkle feed for the app instead. Or maybe the app's developers offer a direct download URL on their website."

/-- Reminder appended when neither codesign fact is present. -/
def msg_codesign_reminder : String :=
  "I can't tell whether this app is codesigned or not, so I'm going to assume it's not. You may want to verify that yourself and add the CodeSignatureVerifier processor if necessary."

/-- Reminder appended when `version_key` is absent. -/
def msg_version_key_reminder : String :=
  "I can't tell whether to use CFBundleShortVersionString or CFBundleVersion for the version key of this app. Most apps use CFBundleShortVersionString, so that's what I'll use. You may want to verify that and modify the recipes if necessary."

/-- Warning appended by `build_recipes` when no generation function is
registered for a type. -/
def msg_no_func (t : String) : String :=
  "Oops, I think my programmer messed up. I don't yet know how to generate a " ++ t ++ " recipe. Sorry about that."

/-- Warning appended by the download and install rules for
app-store-sourced apps. -/
def msg_skip_app_store (t : String) : String :=
  "Skipping " ++ t ++ " recipe, because this app was downloaded from the App Store."

/-- Warning appended by the pkg/jss/absolute/sccm/filewave/ds base
rules when `bundle_id` is absent. -/
def msg_skip_bundle_id (t : String) : String :=
  "Skipping " ++ t ++ " recipe, because I wasn't able to determine the bundle identifier of this app. You may want to actually download the app and try again, using the .app file itself as input."

/-- Warning appended by the pkg base rule when the download is already
a pkg. -/
def msg_skip_pkg_format : String :=
  "Skipping pkg recipe, since the download format is already pkg."

/-- Warning appended by the filewave rule for pkg downloads. -/
def msg_filewave_pkg : String :=
  "Sorry, I don't yet know how to create filewave recipes from pkg downloads."

/-- Reminder appended by the munki rules when no description fact is
present. -/
def msg_munki_description : String :=
  "I couldn't find a description for this app, so you'll need to manually add one to the munki recipe."

/-- Warning appended by the munki and jss rules when `icon_path` is
absent. -/
def msg_no_icon : String :=
  "I don't have enough information to create a PNG icon for this app."

/-- Reminder appended by `warn_about_appstoreapp_pyasn`. -/
def msg_appstore_reminder : String :=
  "I've created at least one AppStoreApp override for you. Be sure to add the nmcspadden-recipes repo and install pyasn1, if you haven't already. (More information: https://github.com/autopkg/nmcspadden-recipes#appstoreapp-recipe)"

/-- Reminder appended by the jss rule about the default category. -/
def msg_jss_category : String :=
  "Remember to manually set the category in the jss recipe. I've set it to \"Productivity\" by default."

/-- Reminder appended by the jss rule when the icon PNG is not on
disk. -/
def msg_jss_png (n : String) : String :=
  "Please make sure " ++ n ++ ".png is in your AutoPkg search path."

/-- Reminder appended by the absolute rule when its shared-processor
repo is missing. -/
def msg_absolute_repo : String :=
  "You'll need to add the AbsoluteManageExport repo in order to use this recipe:\nautopkg repo-add \"https://github.com/tburgin/AbsoluteManageExport\""

/-- Reminder appended by the sccm rule when its shared-processor repo
is missing. -/
def msg_sccm_repo : String :=
  "You'll need to add the cgerke-recipes repo in order to use this recipe:\nautopkg repo-add \"https://github.com/autopkg/cgerke-recipes\""

/-- Reminder appended by the filewave rule when its shared-processor
repo is missing. -/
def msg_filewave_repo : String :=
  "You'll need to add the FileWaveImporter repo in order to use this recipe:\nautopkg repo-add \"https://github.com/johncclayton/FileWaveImporter\""

/-- `raise_if_recipes_cannot_be_generated` (recipe_generator.py lines
105-127): empty preferred list, then the two download checks, each
reading `facts["is_from_app_store"]` with a direct lookup. -/
def raise_if_recipes_cannot_be_generated (facts : Facts)
    (preferred : List Recipe) : Except PyErr Unit :=
  if preferred.isEmpty then Except.error (PyErr.roboError msg_no_preferred)
  else
    match facts.is_from_app_store with
    | none => Except.error (PyErr.keyError "is_from_app_store")
    | some ifas =>
      if ifas = false ∧
          ¬(facts.sparkle_feed.isSome ∨ facts.github_repo.isSome ∨
            facts.sourceforge_id.isSome ∨ facts.download_url.isSome) then
        Except.error (PyErr.roboError msg_no_download_method)
      else if ifas = false ∧ facts.download_format.isNone then
        Except.error (PyErr.roboError msg_no_download_format)
      else Except.ok ()

/-- The names of the generation functions defined at module level of
`recipe_generator.py` (the relevant part of `globals()`). -/
inductive GenFunc where
  | download | app_store_munki | munki | app_store_pkg | pkg
  | install | jss | absolute | sccm | ds | filewave
deriving DecidableEq

/-- `globals()["_".join(func_name)]`: the module-level table from
function name to function. -/
def globalsLookup (name : String) : Option GenFunc :=
  if name = "generate_download_recipe" then some GenFunc.download
  else if name = "generate_app_store_munki_recipe" then some GenFunc.app_store_munki
  else if name = "generate_munki_recipe" then some GenFunc.munki
  else if name = "generate_app_store_pkg_recipe" then some GenFunc.app_store_pkg
  else if name = "generate_pkg_recipe" then some GenFunc.pkg
  else if name = "generate_install_recipe" then some GenFunc.install
  else if name = "generate_jss_recipe" then some GenFunc.jss
  else if name = "generate_absolute_recipe" then some GenFunc.absolute
  else if name = "generate_sccm_recipe" then some GenFunc.sccm
  else if name = "generate_ds_recipe" then some GenFunc.ds
  else if name = "generate_filewave_recipe" then some GenFunc.filewave
  else none

/-- `get_generation_func` (lines 172-185): `None` when the type is not
enabled; otherwise the name `["generate", type, "recipe"]` gets
`"app_store"` inserted at index 1 whenever the type is `munki` or
`pkg` - the facts argument is never consulted. -/
def get_generation_func (_facts : Facts) (prefs : Prefs) (recipe : Recipe) :
    Option GenFunc :=
  if recipe.rtype ∉ prefs.RecipeTypes then none
  else
    let parts := ["generate", recipe.rtype, "recipe"]
    let parts :=
      if recipe.rtype = "munki" ∨ recipe.rtype = "pkg" then
        parts.take 1 ++ ["app_store"] ++ parts.drop 1
      else parts
    globalsLookup (String.intercalate "_" parts)

/-- The parameter list of `build_recipes` as defined
(recipe_generator.py line 130). -/
def build_recipes_params : List String := ["facts", "preferred", "prefs"]

/-- The positional arguments `generate_recipes` passes to
`build_recipes` at its call site (line 98). -/
def build_recipes_call_args : List String :=
  ["facts", "preferred", "prefs", "recipe_dest_dir"]

/-- TypeError text for the mismatched call. -/
def msg_arity : String :=
  "build_recipes() takes exactly 3 arguments (4 given)"

/-- `generate_download_recipe` (lines 188-391).  Skips with one warning
for app-store apps; otherwise sets the description, emits the
source-specific steps (Sparkle feed, GitHub repo, SourceForge id or
direct URL, in that priority order), always appends `EndOfCheckPhase`,
and, when the codesign facts indicate a signed artifact, appends the
verification (and, unless Sparkle supplies the version, versioning)
steps for the format family.  `create_SourceForgeURLProvider` is an
external helper-file write (tools.py); its path argument is computed
but the write has no effect on facts or recipe. -/
def generate_download_recipe (facts : Facts) (prefs : Prefs) (recipe : Recipe) :
    Except PyErr (Facts × Recipe) :=
  match facts.is_from_app_store with
  | none => Except.error (PyErr.keyError "is_from_app_store")
  | some true =>
    Except.ok ({facts with
      warnings := facts.warnings ++ [msg_skip_app_store recipe.rtype]}, recipe)
  | some false =>
  match facts.app_name with
  | none => Except.error (PyErr.keyError "app_name")
  | some app_name =>
  let keys := {recipe.keys with
    Description := some ("Downloads the latest version of " ++ app_name ++ ".")}
  let sourceRes : Except PyErr RecipeKeys :=
    match facts.sparkle_feed with
    | some feed =>
      let keys := {keys with
        Input := setKV keys.Input "SPARKLE_FEED_URL" (Value.str feed)}
      match facts.download_format with
      | none => Except.error (PyErr.keyError "download_format")
      | some fmt =>
        match facts.user_agent with
        | some ua =>
          Except.ok {keys with Process := keys.Process ++
            [{Processor := "SparkleUpdateInfoProvider",
              Arguments := some
                [("appcast_request_headers", Value.dict [("user-agent", Value.str ua)]),
                 ("appcast_url", Value.str "%SPARKLE_FEED_URL%")]},
             {Processor := "URLDownloader",
              Arguments := some
                [("filename", Value.str ("%NAME%-%version%." ++ fmt)),
                 ("request_headers", Value.dict [("user-agent", Value.str ua)])]}]}
        | none =>
          Except.ok {keys with Process := keys.Process ++
            [{Processor := "SparkleUpdateInfoProvider",
              Arguments := some [("appcast_url", Value.str "%SPARKLE_FEED_URL%")]},
             {Processor := "URLDownloader",
              Arguments := some
                [("filename", Value.str ("%NAME%-%version%." ++ fmt))]}]}
    | none =>
    match facts.github_repo with
    | some gh =>
      let keys := {keys with
        Input := setKV keys.Input "GITHUB_REPO" (Value.str gh)}
      match facts.download_format with
      | none => Except.error (PyErr.keyError "download_format")
      | some fmt =>
        Except.ok {keys with Process := keys.Process ++
          [{Processor := "GitHubReleasesInfoProvider",
            Arguments := some [("github_repo", Value.str "%GITHUB_REPO%")]},
           {Processor := "URLDownloader",
            Arguments := some
              [("filename", Value.str ("%NAME%-%version%." ++ fmt))]}]}
    | none =>
    match facts.sourceforge_id with
    | some sfid =>
      let _sf_path :=
        if facts.developer.isSome ∧
            prefs.FollowOfficialJSSRecipesFormat.getD false ≠ true then
          pyReplace (os_path_join (os_path_expanduser prefs.RecipeCreateLocation)
            (facts.developer.getD "")) "/" "-"
        else
          pyReplace (os_path_join (os_path_expanduser prefs.RecipeCreateLocation)
            app_name) "/" "-"
      match facts.download_format with
      | none => Except.error (PyErr.keyError "download_format")
      | some fmt =>
        Except.ok {keys with Process := keys.Process ++
          [{Processor := "SourceForgeURLProvider",
            Arguments := some
              [("SOURCEFORGE_FILE_PATTERN", Value.str ("\\." ++ fmt)),
               ("SOURCEFORGE_PROJECT_ID", Value.str sfid)]},
           {Processor := "URLDownloader",
            Arguments := some [("filename", Value.str ("%NAME%." ++ fmt))]}]}
    | none =>
    match facts.download_url with
    | some url =>
      let keys := {keys with
        Input := setKV keys.Input "DOWNLOAD_URL" (Value.str url)}
      match facts.download_filename with
      | none => Except.error (PyErr.keyError "download_filename")
      | some fn =>
        match facts.user_agent with
        | some ua =>
          Except.ok {keys with Process := keys.Process ++
            [{Processor := "URLDownloader",
              Arguments := some
                [("url", Value.str "%DOWNLOAD_URL%"),
                 ("filename", Value.str fn),
                 ("request_headers", Value.dict [("user-agent", Value.str ua)])]}]}
        | none =>
          Except.ok {keys with Process := keys.Process ++
            [{Processor := "URLDownloader",
              Arguments := some
                [("url", Value.str "%DOWNLOAD_URL%"),
                 ("filename", Value.str fn)]}]}
    | none => Except.ok keys
  match sourceRes with
  | Except.error e => Except.error e
  | Except.ok keys =>
  let keys := {keys with Process := keys.Process ++ [{Processor := "EndOfCheckPhase"}]}
  let signed : Except PyErr Bool :=
    if facts.codesign_reqs.getD "" ≠ "" then Except.ok true
    else
      match facts.codesign_authorities with
      | none => Except.error (PyErr.keyError "codesign_authorities")
      | some au => Except.ok (au.length > 0)
  match signed with
  | Except.error e => Except.error e
  | Except.ok false => Except.ok (facts, {recipe with keys := keys})
  | Except.ok true =>
  match facts.download_format with
  | none => Except.error (PyErr.keyError "download_format")
  | some fmt =>
  if fmt ∈ SUPPORTED_IMAGE_FORMATS then
    match facts.app_name_key with
    | none => Except.error (PyErr.keyError "app_name_key")
    | some ank =>
    let argsRes : Except PyErr (List (String × Value)) :=
      if facts.codesign_reqs.getD "" ≠ "" then
        Except.ok
          [("input_path", Value.str ("%pathname%/" ++ ank ++ ".app")),
           ("requirement", Value.str (facts.codesign_reqs.getD ""))]
      else
        match facts.codesign_authorities with
        | none => Except.error (PyErr.keyError "codesign_authorities")
        | some au =>
          if au.length > 0 then
            Except.ok
              [("input_path", Value.str ("%pathname%/" ++ ank ++ ".app")),
               ("expected_authorities", Value.list (au.map Value.str))]
          else Except.error (PyErr.nameError "codesigverifier_args")
    match argsRes with
    | Except.error e => Except.error e
    | Except.ok csvArgs =>
    let keys := {keys with Process := keys.Process ++
      [{Processor := "CodeSignatureVerifier", Arguments := some csvArgs}]}
    if facts.sparkle_provides_version.getD false = false then
      match facts.version_key with
      | none => Except.error (PyErr.keyError "version_key")
      | some vk =>
        if vk = "CFBundleShortVersionString" then
          Except.ok (facts, {recipe with keys := {keys with Process := keys.Process ++
            [{Processor := "AppDmgVersioner",
              Arguments := some [("dmg_path", Value.str "%pathname%")]}]}})
        else
          Except.ok (facts, {recipe with keys := {keys with Process := keys.Process ++
            [{Processor := "Versioner",
              Arguments := some
                [("input_plist_path",
                  Value.str ("%pathname%/" ++ ank ++ ".app/Contents/Info.plist")),
                 ("plist_version_key", Value.str vk)]}]}})
    else Except.ok (facts, {recipe with keys := keys})
  else if fmt ∈ SUPPORTED_ARCHIVE_FORMATS then
    let keys := {keys with Process := keys.Process ++
      ([{Processor := "Unarchiver",
         Arguments := some
           [("archive_path", Value.str "%pathname%"),
            ("destination_path", Value.str "%RECIPE_CACHE_DIR%/%NAME%/Applications"),
            ("purge_destination", Value.bool true)]}] : List ProcStep)}
    match facts.codesign_reqs with
    | none => Except.error (PyErr.keyError "codesign_reqs")
    | some reqs =>
    match facts.app_name_key with
    | none => Except.error (PyErr.keyError "app_name_key")
    | some ank =>
    let argsRes : Except PyErr (List (String × Value)) :=
      if reqs ≠ "" then
        Except.ok
          [("input_path",
            Value.str ("%RECIPE_CACHE_DIR%/%NAME%/Applications/" ++ ank ++ ".app")),
           ("requirement", Value.str reqs)]
      else
        match facts.codesign_authorities with
        | none => Except.error (PyErr.keyError "codesign_authorities")
        | some au =>
          if au.length > 0 then
            Except.ok
              [("input_path",
                Value.str ("%RECIPE_CACHE_DIR%/%NAME%/Applications/" ++ ank ++ ".app")),
               ("expected_authorities", Value.list (au.map Value.str))]
          else Except.error (PyErr.nameError "codesigverifier_args")
    match argsRes with
    | Except.error e => Except.error e
    | Except.ok csvArgs =>
    let keys := {keys with Process := keys.Process ++
      ([{Processor := "CodeSignatureVerifier", Arguments := some csvArgs}] : List ProcStep)}
    if facts.sparkle_provides_version.getD false = false then
      match facts.version_key with
      | none => Except.error (PyErr.keyError "version_key")
      | some vk =>
        Except.ok (facts, {recipe with keys := {keys with Process := keys.Process ++
          [{Processor := "Versioner",
            Arguments := some
              [("input_plist_path",
                Value.str ("%RECIPE_CACHE_DIR%/%NAME%/Applications/" ++ ank ++
                  ".app/Contents/Info.plist")),
               ("plist_version_key", Value.str vk)]}]}})
    else Except.ok (facts, {recipe with keys := keys})
  else if fmt ∈ SUPPORTED_INSTALL_FORMATS then
    match facts.codesign_authorities with
    | none => Except.error (PyErr.keyError "codesign_authorities")
    | some au =>
      Except.ok (facts, {recipe with keys := {keys with Process := keys.Process ++
        [{Processor := "CodeSignatureVerifier",
          Arguments := some
            [("input_path", Value.str "%pathname%"),
             ("expected_authorities", Value.list (au.map Value.str))]}]}})
  else Except.ok (facts, {recipe with keys := keys})

/-- `warn_about_appstoreapp_pyasn` (lines 1104-1114): appends the
fixed app-store dependency reminder. -/
def warn_about_appstoreapp_pyasn (facts : Facts) : Facts :=
  {facts with reminders := facts.reminders ++ [msg_appstore_reminder]}

/-- The `pkginfo` block shared by both munki rules (lines 419-425 and
460-466). -/
def munki_pkginfo (facts : Facts) (app_name : String) : List (String × Value) :=
  [("catalogs", Value.list [Value.str "testing"]),
   ("developer", Value.str (facts.developer.getD "")),
   ("display_name", Value.str app_name),
   ("name", Value.str "%NAME%"),
   ("unattended_install", Value.bool true)]

/-- `generate_app_store_munki_recipe` (lines 394-435): fixed parent
recipe, `PATH` input from `app_path`, `MAS-` filename, repo
subdirectory and pkginfo block, with a reminder when no description
fact exists. -/
def generate_app_store_munki_recipe (facts : Facts) (_prefs : Prefs)
    (recipe : Recipe) : Except PyErr (Facts × Recipe) :=
  match facts.app_name with
  | none => Except.error (PyErr.keyError "app_name")
  | some app_name =>
  let keys := {recipe.keys with
    Description := some ("Downloads the latest version of " ++ app_name ++
      " from the Mac App Store and imports it into Munki."),
    ParentRecipe := some "com.github.nmcspadden.munki.appstore"}
  match facts.app_path with
  | none => Except.error (PyErr.keyError "app_path")
  | some app_path =>
  let keys := {keys with Input := setKV keys.Input "PATH" (Value.str app_path)}
  let recipe := {recipe with filename := "MAS-" ++ recipe.filename}
  let keys := {keys with
    Input := setKV keys.Input "MUNKI_REPO_SUBDIR" (Value.str "apps/%NAME%")}
  let pkginfo := munki_pkginfo facts app_name
  let (facts, pkginfo) :=
    match facts.description with
    | some d => (facts, setKV pkginfo "description" (Value.str d))
    | none =>
      ({facts with reminders := facts.reminders ++ [msg_munki_description]},
       setKV pkginfo "description" (Value.str " "))
  let keys := {keys with Input := setKV keys.Input "pkginfo" (Value.dict pkginfo)}
  let facts := warn_about_appstoreapp_pyasn facts
  Except.ok (facts, {recipe with keys := keys})

/-- The icon destination path computed by the munki and jss rules
(lines 552-556 and 860-864). -/
def extracted_icon_path (facts : Facts) (prefs : Prefs) (app_name : String) :
    String :=
  if facts.developer.isSome ∧
      prefs.FollowOfficialJSSRecipesFormat.getD false ≠ true then
    os_path_join (os_path_join (os_path_expanduser prefs.RecipeCreateLocation)
      (pyReplace (facts.developer.getD "") "/" "-")) (app_name ++ ".png")
  else
    os_path_join (os_path_join (os_path_expanduser prefs.RecipeCreateLocation)
      (pyReplace app_name "/" "-")) (app_name ++ ".png")

/-- `generate_munki_recipe` (lines 438-561): parent chained to the
download recipe, pkginfo block, format-specific versioning/unarchive
steps mirroring the download rule's unsigned condition, the
`MunkiImporter` step (with a `MunkiPkginfoMerger` when the version key
is not `CFBundleShortVersionString`), and icon handling. -/
def generate_munki_recipe (facts : Facts) (prefs : Prefs) (recipe : Recipe) :
    Except PyErr (Facts × Recipe) :=
  match facts.app_name with
  | none => Except.error (PyErr.keyError "app_name")
  | some app_name =>
  let keys := {recipe.keys with
    Description := some ("Downloads the latest version of " ++ app_name ++
      " and imports it into Munki."),
    ParentRecipe := some (prefs.recipeIdentifierBase ++ ".download." ++
      pyReplace app_name " " "")}
  let keys := {keys with
    Input := setKV keys.Input "MUNKI_REPO_SUBDIR" (Value.str "apps/%NAME%")}
  let pkginfo := munki_pkginfo facts app_name
  let (facts, pkginfo) :=
    match facts.description with
    | some d => (facts, setKV pkginfo "description" (Value.str d))
    | none =>
      ({facts with reminders := facts.reminders ++ [msg_munki_description]},
       setKV pkginfo "description" (Value.str " "))
  match facts.download_format with
  | none => Except.error (PyErr.keyError "download_format")
  | some fmt =>
  let branchRes : Except PyErr (List ProcStep × List (String × Value) × String) :=
    if fmt ∈ SUPPORTED_IMAGE_FORMATS then
      if facts.codesign_reqs.getD "" = "" then
        match facts.codesign_authorities with
        | none => Except.error (PyErr.keyError "codesign_authorities")
        | some au =>
          if au.length = 0 then
            match facts.version_key with
            | none => Except.error (PyErr.keyError "version_key")
            | some vk =>
              if vk = "CFBundleShortVersionString" then
                Except.ok ([{Processor := "AppDmgVersioner",
                             Arguments := some [("dmg_path", Value.str "%pathname%")]}],
                  pkginfo, "%pathname%")
              else
                match facts.app_name_key with
                | none => Except.error (PyErr.keyError "app_name_key")
                | some ank =>
                  Except.ok ([{Processor := "Versioner",
                               Arguments := some
                                 [("input_plist_path",
                                   Value.str ("%pathname%/" ++ ank ++ ".app/Contents/Info.plist")),
                                  ("plist_version_key", Value.str vk)]}],
                    pkginfo, "%pathname%")
          else Except.ok ([], pkginfo, "%pathname%")
      else Except.ok ([], pkginfo, "%pathname%")
    else if fmt ∈ SUPPORTED_ARCHIVE_FORMATS then
      let unarchRes : Except PyErr (List ProcStep) :=
        if facts.codesign_reqs.getD "" = "" then
          match facts.codesign_authorities with
          | none => Except.error (PyErr.keyError "codesign_authorities")
          | some au =>
            if au.length = 0 then
              Except.ok [{Processor := "Unarchiver",
                          Arguments := some
                            [("archive_path", Value.str "%pathname%"),
                             ("destination_path",
                              Value.str "%RECIPE_CACHE_DIR%/%NAME%/Applications"),
                             ("purge_destination", Value.bool true)]}]
            else Except.ok []
        else Except.ok []
      match unarchRes with
      | Except.error e => Except.error e
      | Except.ok unarch =>
        Except.ok (unarch ++
          [{Processor := "DmgCreator",
            Arguments := some
              [("dmg_path", Value.str "%RECIPE_CACHE_DIR%/%NAME%.dmg"),
               ("dmg_root", Value.str "%RECIPE_CACHE_DIR%/%NAME%/Applications")]}],
          pkginfo, "%dmg_path%")
    else if fmt ∈ SUPPORTED_INSTALL_FORMATS then
      match facts.blocking_applications with
      | none => Except.error (PyErr.keyError "blocking_applications")
      | some blocking =>
        if blocking.length > 0 then
          Except.ok ([], setKV pkginfo "blocking_applications"
            (Value.list (blocking.map Value.str)), "%pathname%")
        else Except.ok ([], pkginfo, "%pathname%")
    else Except.ok ([], pkginfo, "%pathname%")
  match branchRes with
  | Except.error e => Except.error e
  | Except.ok (steps, pkginfo, import_file_var) =>
  let keys := {keys with Input := setKV keys.Input "pkginfo" (Value.dict pkginfo)}
  let keys := {keys with Process := keys.Process ++ steps}
  match facts.version_key with
  | none => Except.error (PyErr.keyError "version_key")
  | some vk =>
  let keys :=
    if vk ≠ "CFBundleShortVersionString" then
      {keys with Process := keys.Process ++
        ([{Processor := "MunkiPkginfoMerger",
           Arguments := some [("additional_pkginfo",
             Value.dict [("version", Value.str "%version%")])]},
          {Processor := "MunkiImporter",
           Arguments := some
             [("pkg_path", Value.str import_file_var),
              ("repo_subdirectory", Value.str "%MUNKI_REPO_SUBDIR%"),
              ("version_comparison_key", Value.str vk)]}] : List ProcStep)}
    else
      {keys with Process := keys.Process ++
        ([{Processor := "MunkiImporter",
           Arguments := some
             [("pkg_path", Value.str import_file_var),
              ("repo_subdirectory", Value.str "%MUNKI_REPO_SUBDIR%")]}] : List ProcStep)}
  let facts :=
    match facts.icon_path with
    | some _ => extract_app_icon facts (extracted_icon_path facts prefs app_name)
    | none => {facts with warnings := facts.warnings ++ [msg_no_icon]}
  Except.ok (facts, {recipe with keys := keys})

/-- `generate_app_store_pkg_recipe` (lines 564-587): mirrors the munki
app-store variant structurally (fixed parent identifier, `PATH` input,
`MAS-` filename) without pkginfo or icon handling.  Note that it has no
`bundle_id` check. -/
def generate_app_store_pkg_recipe (facts : Facts) (_prefs : Prefs)
    (recipe : Recipe) : Except PyErr (Facts × Recipe) :=
  match facts.app_name with
  | none => Except.error (PyErr.keyError "app_name")
  | some app_name =>
  let keys := {recipe.keys with
    Description := some ("Downloads the latest version of " ++ app_name ++
      " from the Mac App Store and creates a package."),
    ParentRecipe := some "com.github.nmcspadden.pkg.appstore"}
  match facts.app_path with
  | none => Except.error (PyErr.keyError "app_path")
  | some app_path =>
  let keys := {keys with Input := setKV keys.Input "PATH" (Value.str app_path)}
  let recipe := {recipe with filename := "MAS-" ++ recipe.filename}
  let facts := warn_about_appstoreapp_pyasn facts
  Except.ok (facts, {recipe with keys := keys})

/-- The `PkgCreator` step the pkg base rule always ends with
(lines 687-703). -/
def pkg_creator_step : ProcStep :=
  {Processor := "PkgCreator",
   Arguments := some
     [("pkg_request", Value.dict
       [("pkgroot", Value.str "%RECIPE_CACHE_DIR%/%NAME%"),
        ("pkgname", Value.str "%NAME%-%version%"),
        ("version", Value.str "%version%"),
        ("id", Value.str "%BUNDLE_ID%"),
        ("options", Value.str "purge_ds_store"),
        ("chown", Value.list [Value.dict
          [("path", Value.str "Applications"),
           ("user", Value.str "root"),
           ("group", Value.str "admin")]])])]}

/-- `generate_pkg_recipe` (lines 590-703): skips with one warning when
`bundle_id` is absent; otherwise parent chained to the download recipe,
`BUNDLE_ID` input, format-specific steps, and the final `PkgCreator`
(except for pkg downloads, which are skipped with a warning). -/
def generate_pkg_recipe (facts : Facts) (prefs : Prefs) (recipe : Recipe) :
    Except PyErr (Facts × Recipe) :=
  match facts.bundle_id with
  | none =>
    Except.ok ({facts with
      warnings := facts.warnings ++ [msg_skip_bundle_id recipe.rtype]}, recipe)
  | some bid =>
  match facts.app_name with
  | none => Except.error (PyErr.keyError "app_name")
  | some app_name =>
  let keys := {recipe.keys with
    Description := some ("Downloads the latest version of " ++ app_name ++
      " and creates a package."),
    ParentRecipe := some (prefs.recipeIdentifierBase ++ ".download." ++
      pyReplace app_name " " "")}
  let keys := {keys with Input := setKV keys.Input "BUNDLE_ID" (Value.str bid)}
  match facts.download_format with
  | none => Except.error (PyErr.keyError "download_format")
  | some fmt =>
  if fmt ∈ SUPPORTED_IMAGE_FORMATS then
    let versRes : Except PyErr (List ProcStep) :=
      if facts.codesign_reqs.getD "" = "" then
        match facts.codesign_authorities with
        | none => Except.error (PyErr.keyError "codesign_authorities")
        | some au =>
          if au.length = 0 then
            match facts.version_key with
            | none => Except.error (PyErr.keyError "version_key")
            | some vk =>
              if vk = "CFBundleShortVersionString" then
                Except.ok [{Processor := "AppDmgVersioner",
                            Arguments := some [("dmg_path", Value.str "%pathname%")]}]
              else
                match facts.app_name_key with
                | none => Except.error (PyErr.keyError "app_name_key")
                | some ank =>
                  Except.ok [{Processor := "Versioner",
                              Arguments := some
                                [("input_plist_path",
                                  Value.str ("%pathname%/" ++ ank ++ ".app/Contents/Info.plist")),
                                 ("plist_version_key", Value.str vk)]}]
          else Except.ok []
      else Except.ok []
    match versRes with
    | Except.error e => Except.error e
    | Except.ok vers =>
    match facts.app_name_key with
    | none => Except.error (PyErr.keyError "app_name_key")
    | some ank =>
    let keys := {keys with Process := keys.Process ++ vers ++
      ([{Processor := "PkgRootCreator",
         Arguments := some
           [("pkgroot", Value.str "%RECIPE_CACHE_DIR%/%NAME%"),
            ("pkgdirs", Value.dict [("Applications", Value.str "0775")])]},
        {Processor := "Copier",
         Arguments := some
           [("source_path", Value.str ("%pathname%/" ++ ank ++ ".app")),
            ("destination_path",
             Value.str ("%pkgroot%/Applications/" ++ ank ++ ".app"))]}] : List ProcStep)}
    Except.ok (facts, {recipe with keys :=
      {keys with Process := keys.Process ++ [pkg_creator_step]}})
  else if fmt ∈ SUPPORTED_ARCHIVE_FORMATS then
    let stepsRes : Except PyErr (List ProcStep) :=
      if facts.codesign_reqs.getD "" = "" then
        match facts.codesign_authorities with
        | none => Except.error (PyErr.keyError "codesign_authorities")
        | some au =>
          if au.length = 0 then
            let unarch : ProcStep :=
              {Processor := "Unarchiver",
               Arguments := some
                 [("archive_path", Value.str "%pathname%"),
                  ("destination_path",
                   Value.str "%RECIPE_CACHE_DIR%/%NAME%/Applications"),
                  ("purge_destination", Value.bool true)]}
            if facts.sparkle_provides_version.getD false = false then
              match facts.app_name_key with
              | none => Except.error (PyErr.keyError "app_name_key")
              | some ank =>
              match facts.version_key with
              | none => Except.error (PyErr.keyError "version_key")
              | some vk =>
                Except.ok [unarch,
                  {Processor := "Versioner",
                   Arguments := some
                     [("input_plist_path",
                       Value.str ("%RECIPE_CACHE_DIR%/%NAME%/Applications/" ++ ank ++
                         ".app/Contents/Info.plist")),
                      ("plist_version_key", Value.str vk)]}]
            else Except.ok [unarch]
          else Except.ok []
      else Except.ok []
    match stepsRes with
    | Except.error e => Except.error e
    | Except.ok steps =>
      Except.ok (facts, {recipe with keys :=
        {keys with Process := keys.Process ++ steps ++ [pkg_creator_step]}})
  else if fmt ∈ SUPPORTED_INSTALL_FORMATS then
    Except.ok ({facts with warnings := facts.warnings ++ [msg_skip_pkg_format]},
      {recipe with keys := keys})
  else
    Except.ok (facts, {recipe with keys :=
      {keys with Process := keys.Process ++ [pkg_creator_step]}})

/-- `generate_install_recipe` (lines 706-780): skips with one warning
for app-store apps; otherwise parent chained to the download recipe and
format-specific install steps. -/
def generate_install_recipe (facts : Facts) (prefs : Prefs) (recipe : Recipe) :
    Except PyErr (Facts × Recipe) :=
  match facts.is_from_app_store with
  | none => Except.error (PyErr.keyError "is_from_app_store")
  | some true =>
    Except.ok ({facts with
      warnings := facts.warnings ++ [msg_skip_app_store recipe.rtype]}, recipe)
  | some false =>
  match facts.app_name with
  | none => Except.error (PyErr.keyError "app_name")
  | some app_name =>
  let keys := {recipe.keys with
    Description := some ("Installs the latest version of " ++ app_name ++ "."),
    ParentRecipe := some (prefs.recipeIdentifierBase ++ ".download." ++
      pyReplace app_name " " "")}
  match facts.download_format with
  | none => Except.error (PyErr.keyError "download_format")
  | some fmt =>
  if fmt ∈ SUPPORTED_IMAGE_FORMATS then
    match facts.app_name_key with
    | none => Except.error (PyErr.keyError "app_name_key")
    | some ank =>
      Except.ok (facts, {recipe with keys := {keys with Process := keys.Process ++
        [{Processor := "InstallFromDMG",
          Arguments := some
            [("dmg_path", Value.str "%pathname%"),
             ("items_to_copy", Value.list [Value.dict
               [("source_item", Value.str (ank ++ ".app")),
                ("destination_path", Value.str "/Applications")]])]}]}})
  else if fmt ∈ SUPPORTED_ARCHIVE_FORMATS then
    let unarchRes : Except PyErr (List ProcStep) :=
      if facts.codesign_reqs.getD "" = "" then
        match facts.codesign_authorities with
        | none => Except.error (PyErr.keyError "codesign_authorities")
        | some au =>
          if au.length = 0 then
            Except.ok [{Processor := "Unarchiver",
                        Arguments := some
                          [("archive_path", Value.str "%pathname%"),
                           ("destination_path",
                            Value.str "%RECIPE_CACHE_DIR%/%NAME%/Applications"),
                           ("purge_destination", Value.bool true)]}]
          else Except.ok []
      else Except.ok []
    match unarchRes with
    | Except.error e => Except.error e
    | Except.ok unarch =>
    match facts.app_name_key with
    | none => Except.error (PyErr.keyError "app_name_key")
    | some ank =>
      Except.ok (facts, {recipe with keys := {keys with Process := keys.Process ++
        unarch ++
        ([{Processor := "DmgCreator",
           Arguments := some
             [("dmg_root", Value.str "%RECIPE_CACHE_DIR%/%NAME%/Applications"),
              ("dmg_path", Value.str "%RECIPE_CACHE_DIR%/%NAME%.dmg")]},
          {Processor := "InstallFromDMG",
           Arguments := some
             [("dmg_path", Value.str "%dmg_path%"),
              ("items_to_copy", Value.list [Value.dict
                [("source_item", Value.str (ank ++ ".app")),
                 ("destination_path", Value.str "/Applications")]])]}] : List ProcStep)}})
  else if fmt ∈ SUPPORTED_INSTALL_FORMATS then
    Except.ok (facts, {recipe with keys := {keys with Process := keys.Process ++
      [{Processor := "Installer",
        Arguments := some [("pkg_path", Value.str "%pathname%")]}]}})
  else Except.ok (facts, {recipe with keys := keys})

/-- `generate_jss_recipe` (lines 783-875): skips with one warning when
`bundle_id` is absent; otherwise parent chained to the pkg recipe,
category/policy/self-service inputs, a version-key-dependent smart
group template, optional inventory-name override, icon handling, and a
single `JSSImporter` step.  `path_exists` models `os.path.exists`. -/
def generate_jss_recipe (path_exists : String → Bool) (facts : Facts)
    (prefs : Prefs) (recipe : Recipe) : Except PyErr (Facts × Recipe) :=
  match facts.bundle_id with
  | none =>
    Except.ok ({facts with
      warnings := facts.warnings ++ [msg_skip_bundle_id recipe.rtype]}, recipe)
  | some _bid =>
  match facts.app_name with
  | none => Except.error (PyErr.keyError "app_name")
  | some app_name =>
  match prefs.FollowOfficialJSSRecipesFormat with
  | none => Except.error (PyErr.keyError "FollowOfficialJSSRecipesFormat")
  | some fojrf =>
  let keys :=
    if fojrf = true then
      {recipe.keys with Identifier :=
        "com.github.jss-recipes.jss." ++ pyReplace app_name " " ""}
    else recipe.keys
  let keys := {keys with
    Description := some ("Downloads the latest version of " ++ app_name ++
      " and imports it into your JSS."),
    ParentRecipe := some (prefs.recipeIdentifierBase ++ ".pkg." ++
      pyReplace app_name " " "")}
  let keys := {keys with Input := setKV keys.Input "CATEGORY" (Value.str "Productivity")}
  let facts := {facts with reminders := facts.reminders ++ [msg_jss_category]}
  let keys := {keys with Input := setKV keys.Input "POLICY_CATEGORY" (Value.str "Testing")}
  let keys := {keys with Input := setKV keys.Input "POLICY_TEMPLATE" (Value.str "PolicyTemplate.xml")}
  let keys := {keys with Input := setKV keys.Input "SELF_SERVICE_ICON" (Value.str "%NAME%.png")}
  let facts :=
    if ¬ path_exists (os_path_join (os_path_expanduser prefs.RecipeCreateLocation)
        (app_name ++ ".png")) then
      {facts with reminders := facts.reminders ++ [msg_jss_png app_name]}
    else facts
  let ssdesc := Value.str (facts.description.getD "")
  let keys := {keys with Input := setKV keys.Input "SELF_SERVICE_DESCRIPTION" ssdesc}
  let keys := {keys with Input := setKV keys.Input "GROUP_NAME" (Value.str "%NAME%-update-smart")}
  let jssArgs : List (String × Value) :=
    [("prod_name", Value.str "%NAME%"),
     ("category", Value.str "%CATEGORY%"),
     ("policy_category", Value.str "%POLICY_CATEGORY%"),
     ("policy_template", Value.str "%POLICY_TEMPLATE%"),
     ("self_service_icon", Value.str "%SELF_SERVICE_ICON%"),
     ("self_service_description", Value.str "%SELF_SERVICE_DESCRIPTION%"),
     ("groups", Value.list [Value.dict
       [("name", Value.str "%GROUP_NAME%"),
        ("smart", Value.bool true),
        ("template_path", Value.str "%GROUP_TEMPLATE%")]])]
  match facts.version_key with
  | none => Except.error (PyErr.keyError "version_key")
  | some vk =>
  let extAttrs := Value.list [Value.dict
    [("ext_attribute_path", Value.str "CFBundleVersionExtensionAttribute.xml")]]
  let (keys, jssArgs) :=
    if vk = "CFBundleVersion" then
      ({keys with Input := setKV keys.Input "GROUP_TEMPLATE" (Value.str "CFBundleVersionSmartGroupTemplate.xml")},
       setKV jssArgs "extension_attributes" extAttrs)
    else
      ({keys with Input := setKV keys.Input "GROUP_TEMPLATE" (Value.str "SmartGroupTemplate.xml")}, jssArgs)
  let jssArgs :=
    match facts.app_file with
    | some af => setKV jssArgs "jss_inventory_name" (Value.str af)
    | none => jssArgs
  let facts :=
    match facts.icon_path with
    | some _ => extract_app_icon facts (extracted_icon_path facts prefs app_name)
    | none => {facts with warnings := facts.warnings ++ [msg_no_icon]}
  Except.ok (facts, {recipe with keys := {keys with Process := keys.Process ++
    [{Processor := "JSSImporter", Arguments := some jssArgs}]}})

/-- The repo-list membership test shared by the absolute, sccm and
filewave rules: `autopkg repo-list` output is split into lines and a
line must end in `"(<url>)"`.  `repo_list_out` is the stdout of the
external query. -/
def repo_listed (repo_list_out : String) (url : String) : Bool :=
  (repo_list_out.splitOn "\n").any (fun line => line.endsWith ("(" ++ url ++ ")"))

/-- `generate_absolute_recipe` (lines 878-926): skips with one warning
when `bundle_id` is absent; otherwise parent chained to the pkg recipe
(app name used verbatim, spaces kept), a reminder when the
AbsoluteManageExport repo is not configured, and one shared-processor
export step. -/
def generate_absolute_recipe (repo_list_out : String) (facts : Facts)
    (prefs : Prefs) (recipe : Recipe) : Except PyErr (Facts × Recipe) :=
  match facts.bundle_id with
  | none =>
    Except.ok ({facts with
      warnings := facts.warnings ++ [msg_skip_bundle_id recipe.rtype]}, recipe)
  | some _bid =>
  match facts.app_name with
  | none => Except.error (PyErr.keyError "app_name")
  | some app_name =>
  let keys := {recipe.keys with
    Description := some ("Downloads the latest version of " ++ app_name ++
      " and copies it into your Absolute Manage Server."),
    ParentRecipe := some (prefs.recipeIdentifierBase ++ ".pkg." ++ app_name)}
  let facts :=
    if ¬ repo_listed repo_list_out "https://github.com/tburgin/AbsoluteManageExport" then
      {facts with reminders := facts.reminders ++ [msg_absolute_repo]}
    else facts
  Except.ok (facts, {recipe with keys := {keys with Process := keys.Process ++
    [{Processor := "com.github.tburgin.AbsoluteManageExport/AbsoluteManageExport",
      SharedProcessorRepoURL := some "https://github.com/tburgin/AbsoluteManageExport",
      Arguments := some
        [("dest_payload_path", Value.str "%RECIPE_CACHE_DIR%/%NAME%-%version%.amsdpackages"),
         ("sdpackages_ampkgprops_path", Value.str "%RECIPE_DIR%/%NAME%-Defaults.ampkgprops"),
         ("source_payload_path", Value.str "%pkg_path%"),
         ("import_abman_to_servercenter", Value.bool true)]}]}})

/-- `generate_sccm_recipe` (lines 929-975): skips with one warning when
`bundle_id` is absent; otherwise parent chained to the pkg recipe (app
name used verbatim, spaces kept), a reminder when the cgerke-recipes
repo is not configured, and one `CmmacCreator` shared-processor step. -/
def generate_sccm_recipe (repo_list_out : String) (facts : Facts)
    (prefs : Prefs) (recipe : Recipe) : Except PyErr (Facts × Recipe) :=
  match facts.bundle_id with
  | none =>
    Except.ok ({facts with
      warnings := facts.warnings ++ [msg_skip_bundle_id recipe.rtype]}, recipe)
  | some _bid =>
  match facts.app_name with
  | none => Except.error (PyErr.keyError "app_name")
  | some app_name =>
  let keys := {recipe.keys with
    Description := some ("Downloads the latest version of " ++ app_name ++
      " and copies it into your SCCM Server."),
    ParentRecipe := some (prefs.recipeIdentifierBase ++ ".pkg." ++ app_name)}
  let facts :=
    if ¬ repo_listed repo_list_out "https://github.com/autopkg/cgerke-recipes" then
      {facts with reminders := facts.reminders ++ [msg_sccm_repo]}
    else facts
  Except.ok (facts, {recipe with keys := {keys with Process := keys.Process ++
    [{Processor := "com.github.autopkg.cgerke-recipes.SharedProcessors/CmmacCreator",
      SharedProcessorRepoURL := some "https://github.com/autopkg/cgerke-recipes",
      Arguments := some
        [("source_file", Value.str "%pkg_path%"),
         ("destination_directory", Value.str "%RECIPE_CACHE_DIR%")]}]}})

/-- `generate_filewave_recipe` (lines 978-1054): skips with one warning
when `bundle_id` is absent; otherwise parent chained to the download
recipe (app name used verbatim, spaces kept), format-dependent
versioning/unarchive steps, a warning (without returning) for pkg
downloads, a reminder when the FileWaveImporter repo is not configured,
and one `FileWaveImporter` step. -/
def generate_filewave_recipe (repo_list_out : String) (facts : Facts)
    (prefs : Prefs) (recipe : Recipe) : Except PyErr (Facts × Recipe) :=
  match facts.bundle_id with
  | none =>
    Except.ok ({facts with
      warnings := facts.warnings ++ [msg_skip_bundle_id recipe.rtype]}, recipe)
  | some bid =>
  match facts.app_name with
  | none => Except.error (PyErr.keyError "app_name")
  | some app_name =>
  let keys := {recipe.keys with
    Description := some ("Downloads the latest version of " ++ app_name ++
      ", creates a fileset, and copies it into your FileWave Server."),
    ParentRecipe := some (prefs.recipeIdentifierBase ++ ".download." ++ app_name)}
  match facts.download_format with
  | none => Except.error (PyErr.keyError "download_format")
  | some fmt =>
  let branchRes : Except PyErr (List ProcStep × List String) :=
    if fmt ∈ SUPPORTED_IMAGE_FORMATS ∧ facts.sparkle_feed.isNone then
      match facts.app_name_key with
      | none => Except.error (PyErr.keyError "app_name_key")
      | some ank =>
      match facts.version_key with
      | none => Except.error (PyErr.keyError "version_key")
      | some vk =>
        Except.ok ([{Processor := "Versioner",
                     Arguments := some
                       [("input_plist_path",
                         Value.str ("%pathname%/" ++ ank ++ ".app/Contents/Info.plist")),
                        ("plist_version_key", Value.str vk)]}], [])
    else if fmt ∈ SUPPORTED_ARCHIVE_FORMATS then
      if facts.codesign_reqs.getD "" = "" then
        match facts.codesign_authorities with
        | none => Except.error (PyErr.keyError "codesign_authorities")
        | some au =>
          if au.length = 0 then
            Except.ok ([{Processor := "Unarchiver",
                         Arguments := some
                           [("archive_path", Value.str "%pathname%"),
                            ("destination_path",
                             Value.str "%RECIPE_CACHE_DIR%/%NAME%/Applications"),
                            ("purge_destination", Value.bool true)]}], [])
          else Except.ok ([], [])
      else Except.ok ([], [])
    else if fmt ∈ SUPPORTED_INSTALL_FORMATS then
      Except.ok ([], [msg_filewave_pkg])
    else Except.ok ([], [])
  match branchRes with
  | Except.error e => Except.error e
  | Except.ok (steps, warns) =>
  let facts := {facts with warnings := facts.warnings ++ warns}
  let keys := {keys with Process := keys.Process ++ steps}
  let facts :=
    if ¬ repo_listed repo_list_out "https://github.com/johncclayton/FileWaveImporter" then
      {facts with reminders := facts.reminders ++ [msg_filewave_repo]}
    else facts
  Except.ok (facts, {recipe with keys := {keys with Process := keys.Process ++
    [{Processor := "com.github.johncclayton.filewave.FWTool/FileWaveImporter",
      Arguments := some
        [("fw_app_bundle_id", Value.str bid),
         ("fw_app_version", Value.str "%version%"),
         ("fw_import_source", Value.str "%RECIPE_CACHE_DIR%/%NAME%/%NAME%.app"),
         ("fw_fileset_name", Value.str "%NAME% - %version%"),
         ("fw_fileset_group", Value.str "Testing"),
         ("fw_destination_root", Value.str "/Applications/%NAME%.app")]}]}})

/-- `generate_ds_recipe` (lines 1057-1101): skips with one warning when
`bundle_id` is absent; otherwise parent chained to the pkg recipe (app
name used verbatim, spaces kept), DeployStudio inputs, a guard step and
a copy step. -/
def generate_ds_recipe (facts : Facts) (prefs : Prefs) (recipe : Recipe) :
    Except PyErr (Facts × Recipe) :=
  match facts.bundle_id with
  | none =>
    Except.ok ({facts with
      warnings := facts.warnings ++ [msg_skip_bundle_id recipe.rtype]}, recipe)
  | some _bid =>
  match facts.app_name with
  | none => Except.error (PyErr.keyError "app_name")
  | some app_name =>
  let keys := {recipe.keys with
    Description := some ("Downloads the latest version of " ++ app_name ++
      " and copies it to your DeployStudio packages."),
    ParentRecipe := some (prefs.recipeIdentifierBase ++ ".pkg." ++ app_name)}
  match prefs.DSPackagesPath with
  | none => Except.error (PyErr.keyError "DSPackagesPath")
  | some dsp =>
  let keys := {keys with Input := setKV keys.Input "DS_PKGS_PATH" (Value.str dsp)}
  let keys := {keys with Input := setKV keys.Input "DS_NAME" (Value.str "%NAME%")}
  Except.ok (facts, {recipe with keys := {keys with Process := keys.Process ++
    [{Processor := "StopProcessingIf",
      Arguments := some [("predicate", Value.str "new_package_request == FALSE")]},
     {Processor := "Copier",
      Arguments := some
        [("source_path", Value.str "%pkg_path%"),
         ("destination_path", Value.str "%DS_PKGS_PATH%/%DS_NAME%.pkg"),
         ("overwrite", Value.bool true)]}]}})

/-- Invokes the generation function selected by `get_generation_func`
(`generation_func(facts, prefs, recipe)` at line 162).  `path_exists`
and `repo_list_out` carry the external filesystem and `autopkg
repo-list` query results to the rules that use them. -/
def run_generation_func (path_exists : String → Bool) (repo_list_out : String)
    (f : GenFunc) (facts : Facts) (prefs : Prefs) (recipe : Recipe) :
    Except PyErr (Facts × Recipe) :=
  match f with
  | GenFunc.download => generate_download_recipe facts prefs recipe
  | GenFunc.app_store_munki => generate_app_store_munki_recipe facts prefs recipe
  | GenFunc.munki => generate_munki_recipe facts prefs recipe
  | GenFunc.app_store_pkg => generate_app_store_pkg_recipe facts prefs recipe
  | GenFunc.pkg => generate_pkg_recipe facts prefs recipe
  | GenFunc.install => generate_install_recipe facts prefs recipe
  | GenFunc.jss => generate_jss_recipe path_exists facts prefs recipe
  | GenFunc.absolute => generate_absolute_recipe repo_list_out facts prefs recipe
  | GenFunc.sccm => generate_sccm_recipe repo_list_out facts prefs recipe
  | GenFunc.ds => generate_ds_recipe facts prefs recipe
  | GenFunc.filewave => generate_filewave_recipe repo_list_out facts prefs recipe

/-- The recipe identifier the dispatcher computes
(`build_recipes`, lines 142-144): prefix `.` type `.` app name with
spaces removed. -/
def identifier_for (prefs : Prefs) (rtype : String) (app_name : String) :
    String :=
  prefs.recipeIdentifierBase ++ "." ++ rtype ++ "." ++ pyReplace app_name " " ""

/-- The outcome of one iteration of the `build_recipes` loop. -/
structure BuildOneResult where
  facts : Facts
  prefs : Prefs
  recipe : Recipe
  dest_path : String
  written : Option (String × RecipeKeys)

/-- One iteration of the `build_recipes` loop (lines 133-169): seed
`Input.NAME`, filename and identifier, set `app_name_key` from
`app_file`, select and run the generation rule (warning when none is
registered), then increment `RecipeCreateCount` when the destination
path does not already exist, write the recipe (only non-empty `Process`
lists are serialized) and append the destination path to
`facts["recipes"]`. -/
def build_one (path_exists : String → Bool) (repo_list_out : String)
    (recipe_dest_dir : String) (facts : Facts) (prefs : Prefs)
    (recipe : Recipe) : Except PyErr BuildOneResult :=
  match facts.app_name with
  | none => Except.error (PyErr.keyError "app_name")
  | some app_name =>
  let recipe := {recipe with
    keys := {recipe.keys with Input := setKV recipe.keys.Input "NAME" (Value.str app_name)},
    filename := app_name ++ "." ++ recipe.rtype ++ ".recipe"}
  let recipe := {recipe with
    keys := {recipe.keys with Identifier := identifier_for prefs recipe.rtype app_name}}
  let (facts, recipe) :=
    match facts.app_file with
    | some af =>
      ({facts with app_name_key := some "%APP_FILENAME%"},
       {recipe with keys := {recipe.keys with
          Input := setKV recipe.keys.Input "APP_FILENAME" (Value.str af)}})
    | none => ({facts with app_name_key := some "%NAME%"}, recipe)
  let genRes : Except PyErr (Facts × Recipe) :=
    match get_generation_func facts prefs recipe with
    | none =>
      Except.ok ({facts with
        warnings := facts.warnings ++ [msg_no_func recipe.rtype]}, recipe)
    | some f => run_generation_func path_exists repo_list_out f facts prefs recipe
  match genRes with
  | Except.error e => Except.error e
  | Except.ok (facts, recipe) =>
  let dest_path := os_path_join recipe_dest_dir recipe.filename
  let prefs :=
    if ¬ path_exists dest_path then
      {prefs with RecipeCreateCount := prefs.RecipeCreateCount + 1}
    else prefs
  let written := recipe.write dest_path
  let facts := {facts with recipes := facts.recipes ++ [RecipesEntry.path dest_path]}
  Except.ok ⟨facts, prefs, recipe, dest_path, written⟩

/-- `build_recipes` (lines 130-169), with its three parameters as
defined.  Folds `build_one` over the preferred recipes, collecting the
writes that `Recipe.write` performs. -/
def build_recipes (path_exists : String → Bool) (repo_list_out : String)
    (facts : Facts) (preferred : List Recipe) (prefs : Prefs) :
    Except PyErr (Facts × Prefs × List (String × RecipeKeys)) :=
  match facts.recipe_dest_dir with
  | none => Except.error (PyErr.keyError "recipe_dest_dir")
  | some recipe_dest_dir =>
  preferred.foldlM
    (fun st recipe =>
      match build_one path_exists repo_list_out recipe_dest_dir st.1 st.2.1 recipe with
      | Except.error e => Except.error e
      | Except.ok r => Except.ok (r.facts, r.prefs, st.2.2 ++ r.written.toList))
    (facts, prefs, [])

/-- The preferred-recipe list `generate_recipes` computes (line 64):
the `Recipe` objects in `facts["recipes"]` whose `preferred` flag is
set. -/
def preferredOf (facts : Facts) : List Recipe :=
  facts.recipes.filterMap (fun e =>
    match e with
    | RecipesEntry.robj r => if r.preferred then some r else none
    | RecipesEntry.path _ => none)

/-- The destination directory `generate_recipes` computes
(lines 91-94). -/
def recipe_dest_dir_of (facts : Facts) (prefs : Prefs) (app_name : String) :
    String :=
  if facts.developer.isSome ∧
      prefs.FollowOfficialJSSRecipesFormat.getD false ≠ true then
    os_path_join (os_path_expanduser prefs.RecipeCreateLocation)
      (pyReplace (facts.developer.getD "") "/" "-")
  else
    os_path_join (os_path_expanduser prefs.RecipeCreateLocation)
      (pyReplace app_name "/" "-")

/-- `generate_recipes` (lines 47-102): existing-recipe bookkeeping and
the `app_name` RoboError, preflight, the soft codesign/version-key
defaults, destination-directory computation, and then the call
`build_recipes(facts, preferred, prefs, recipe_dest_dir)` - four
positional arguments against the three parameters of
`build_recipes_params`, which Python rejects with a `TypeError` at the
call before `build_recipes` runs. -/
def generate_recipes (path_exists : String → Bool) (repo_list_out : String)
    (facts : Facts) (prefs : Prefs) :
    Except PyErr (Facts × Prefs × List (String × RecipeKeys)) :=
  match facts.app_name with
  | none => Except.error (PyErr.roboError msg_no_app_name)
  | some app_name =>
  let facts :=
    if ¬ facts.args_ignore_existing then create_existing_recipe_list facts
    else facts
  let preferred := preferredOf facts
  match raise_if_recipes_cannot_be_generated facts preferred with
  | Except.error e => Except.error e
  | Except.ok _ =>
  let facts :=
    if facts.codesign_reqs.isNone ∧ facts.codesign_authorities.isNone then
      {facts with
        reminders := facts.reminders ++ [msg_codesign_reminder],
        codesign_reqs := some "",
        codesign_authorities := some []}
    else facts
  let facts :=
    if facts.version_key.isNone then
      {facts with
        reminders := facts.reminders ++ [msg_version_key_reminder],
        version_key := some "CFBundleShortVersionString"}
    else facts
  let facts := {facts with
    recipe_dest_dir := some (recipe_dest_dir_of facts prefs app_name)}
  if build_recipes_call_args.length = build_recipes_params.length then
    build_recipes path_exists repo_list_out facts preferred prefs
  else
    Except.error (PyErr.typeError msg_arity)

/-- A fully configured preferences fixture: all nine types enabled. -/
def prefsA : Prefs :=
  { recipeIdentifierBase := "com.test",
    RecipeCreateLocation := "/recipes",
    RecipeTypes := ["download", "munki", "pkg", "install", "jss", "absolute",
                    "sccm", "ds", "filewave"],
    FollowOfficialJSSRecipesFormat := some false,
    DSPackagesPath := some "/ds",
    RecipeCreateCount := 0 }

/-- Catalog recipe fixtures. -/
def downloadR : Recipe :=
  Recipe.init "download" "Downloads an app in whatever format the developer provides."

def munkiR : Recipe := Recipe.init "munki" "Imports into your Munki repository."

def pkgR : Recipe := Recipe.init "pkg" "Creates a standard pkg installer file."

def installR : Recipe :=
  Recipe.init "install" "Installs the app on the computer running AutoPkg."

def jssR : Recipe :=
  Recipe.init "jss" "Imports into your Casper JSS and creates necessary groups, policies, etc."

def absoluteR : Recipe := Recipe.init "absolute" "Imports into your Absolute Manage server."

def sccmR : Recipe :=
  Recipe.init "sccm" "Creates a cmmac package for deploying via Microsoft SCCM."

def dsR : Recipe := Recipe.init "ds" "Imports into your DeployStudio Packages folder."

def filewaveR : Recipe := Recipe.init "filewave" "Imports a fileset into your FileWave server."

/-- Facts for an ordinary non-app-store zip download. -/
def factsZip : Facts :=
  { app_name := some "Foo", download_url := some "https://example.com/Foo.zip",
    download_filename := some "Foo.zip", download_format := some "zip",
    is_from_app_store := some false, codesign_reqs := some "",
    codesign_authorities := some [], version_key := some "CFBundleShortVersionString",
    app_name_key := some "%NAME%" }

/-- Like `factsZip` but with no `bundle_id` and no `app_path` (the
ordinary situation for a direct download whose bundle identifier could
not be inspected). -/
def factsNoBundle : Facts := factsZip

/-- The type of an `Except` result of a generation rule, projected to
the recipe when it succeeded. -/
def ruleRecipe (e : Except PyErr (Facts × Recipe)) : Option Recipe :=
  match e with
  | Except.ok (_, r) => some r
  | Except.error _ => none

/-- Projection of a rule result to the `ParentRecipe` key it set. -/
def parent_of (e : Except PyErr (Facts × Recipe)) : Option String :=
  match e with
  | Except.ok (_, r) => r.keys.ParentRecipe
  | Except.error _ => none

/-- Projection of a rule result to the produced `Process` list. -/
def process_of (e : Except PyErr (Facts × Recipe)) : List ProcStep :=
  match e with
  | Except.ok (_, r) => r.keys.Process
  | Except.error _ => []

/-- C2: the spec says the dispatcher uses the app-store variant for
`munki`/`pkg` exactly when `is_from_app_store` is true.  The code
inserts `"app_store"` into the function name unconditionally for those
two types and never consults the facts: even for facts with
`is_from_app_store = false` it selects the app-store variant rules
(whose docstrings say they are for app-store apps and which read the
`app_path` fact that non-app-store runs lack), and it does so for every
facts value. -/
theorem C2_dispatch_always_selects_app_store_variant :
    factsZip.is_from_app_store = some false ∧
    get_generation_func factsZip prefsA munkiR = some GenFunc.app_store_munki ∧
    get_generation_func factsZip prefsA pkgR = some GenFunc.app_store_pkg ∧
    (∀ facts : Facts,
      get_generation_func facts prefsA munkiR = some GenFunc.app_store_munki) ∧
    (∀ facts : Facts,
      get_generation_func facts prefsA pkgR = some GenFunc.app_store_pkg) :=
  ⟨rfl, rfl, rfl, fun _ => rfl, fun _ => rfl⟩

/-- C3: for facts lacking `bundle_id` the spec expects every one of
pkg/jss/absolute/sccm/filewave/ds to skip with exactly one warning and
an empty Process list.  Five of the six dispatched rules do exactly
that, but the dispatcher resolves `pkg` to
`generate_app_store_pkg_recipe`, which performs no `bundle_id` check at
all: on the ordinary facts here it raises `KeyError` on the absent
`app_path` fact instead of warning, while the bundle-id guard the spec
describes sits in the never-dispatched `generate_pkg_recipe`. -/
theorem C3_pkg_dispatch_misses_bundle_id_guard :
    factsNoBundle.bundle_id = none ∧
    get_generation_func factsNoBundle prefsA pkgR = some GenFunc.app_store_pkg ∧
    generate_app_store_pkg_recipe factsNoBundle prefsA pkgR =
      Except.error (PyErr.keyError "app_path") ∧
    generate_pkg_recipe factsNoBundle prefsA pkgR =
      Except.ok ({factsNoBundle with
        warnings := factsNoBundle.warnings ++ [msg_skip_bundle_id "pkg"]}, pkgR) ∧
    generate_jss_recipe (fun _ => false) factsNoBundle prefsA jssR =
      Except.ok ({factsNoBundle with
        warnings := factsNoBundle.warnings ++ [msg_skip_bundle_id "jss"]}, jssR) ∧
    generate_absolute_recipe "" factsNoBundle prefsA absoluteR =
      Except.ok ({factsNoBundle with
        warnings := factsNoBundle.warnings ++ [msg_skip_bundle_id "absolute"]}, absoluteR) ∧
    generate_sccm_recipe "" factsNoBundle prefsA sccmR =
      Except.ok ({factsNoBundle with
        warnings := factsNoBundle.warnings ++ [msg_skip_bundle_id "sccm"]}, sccmR) ∧
    generate_filewave_recipe "" factsNoBundle prefsA filewaveR =
      Except.ok ({factsNoBundle with
        warnings := factsNoBundle.warnings ++ [msg_skip_bundle_id "filewave"]}, filewaveR) ∧
    generate_ds_recipe factsNoBundle prefsA dsR =
      Except.ok ({factsNoBundle with
        warnings := factsNoBundle.warnings ++ [msg_skip_bundle_id "ds"]}, dsR) :=
  ⟨rfl, rfl, rfl, rfl, rfl, rfl, rfl, rfl, rfl⟩

/-- C4: for every facts with `is_from_app_store = true`, the download
rule and the install rule each append exactly one warning and return
the recipe unchanged, so no Process step is appended and the recipes
stay empty. -/
theorem C4_app_store_skips_download_and_install
    (facts : Facts) (prefs : Prefs) (rd ri : Recipe)
    (h : facts.is_from_app_store = some true) :
    generate_download_recipe facts prefs rd =
      Except.ok ({facts with
        warnings := facts.warnings ++ [msg_skip_app_store rd.rtype]}, rd) ∧
    generate_install_recipe facts prefs ri =
      Except.ok ({facts with
        warnings := facts.warnings ++ [msg_skip_app_store ri.rtype]}, ri) := by
  unfold generate_download_recipe generate_install_recipe
  rw [h]
  exact ⟨rfl, rfl⟩

/-- Witness for C4 on concrete app-store facts. -/
theorem C4_app_store_skips_download_and_install_witness :
    generate_download_recipe {factsZip with is_from_app_store := some true}
        prefsA downloadR =
      Except.ok ({{factsZip with is_from_app_store := some true} with
        warnings := {factsZip with is_from_app_store := some true}.warnings ++
          [msg_skip_app_store downloadR.rtype]}, downloadR) ∧
    generate_install_recipe {factsZip with is_from_app_store := some true}
        prefsA installR =
      Except.ok ({{factsZip with is_from_app_store := some true} with
        warnings := {factsZip with is_from_app_store := some true}.warnings ++
          [msg_skip_app_store installR.rtype]}, installR) :=
  C4_app_store_skips_download_and_install
    {factsZip with is_from_app_store := some true} prefsA downloadR installR rfl

/-- Facts with everything the preflight download checks want except the
`is_from_app_store` key itself. -/
def factsNoStoreKey : Facts := {factsZip with is_from_app_store := none}

/-- C10 counterexample: the claim quantifies over every facts value
lacking `is_from_app_store`, but when the preferred-type list is empty
the preflight raises the documented no-preferred-recipes RoboError
before the `is_from_app_store` lookup is ever evaluated, not a
key-lookup error. -/
theorem C10_counterexample_empty_preferred :
    factsNoStoreKey.is_from_app_store = none ∧
    factsNoStoreKey.app_name = some "Foo" ∧
    factsNoStoreKey.download_url.isSome = true ∧
    factsNoStoreKey.download_format.isSome = true ∧
    raise_if_recipes_cannot_be_generated factsNoStoreKey [] =
      Except.error (PyErr.roboError msg_no_preferred) ∧
    PyErr.roboError msg_no_preferred ≠ PyErr.keyError "is_from_app_store" :=
  ⟨rfl, rfl, rfl, rfl, rfl, by decide⟩

/-- C10 as amended: whenever at least one preferred recipe type is
available, the preflight reads `facts["is_from_app_store"]`
unconditionally, so for every facts value lacking that key it fails
with the key-lookup error - regardless of `app_name`, download methods
or `download_format` - rather than succeeding or raising one of the
documented RoboErrors. -/
theorem C10_missing_app_store_key_is_key_error
    (facts : Facts) (preferred : List Recipe)
    (hpref : preferred ≠ [])
    (hkey : facts.is_from_app_store = none) :
    raise_if_recipes_cannot_be_generated facts preferred =
      Except.error (PyErr.keyError "is_from_app_store") := by
  cases preferred with
  | nil => exact absurd rfl hpref
  | cons a l =>
    unfold raise_if_recipes_cannot_be_generated
    rw [hkey]
    rfl

/-- Witness for C10 as amended, at concrete facts with `app_name`, a
download URL and a download format all present. -/
theorem C10_missing_app_store_key_is_key_error_witness :
    raise_if_recipes_cannot_be_generated factsNoStoreKey [downloadR] =
      Except.error (PyErr.keyError "is_from_app_store") :=
  C10_missing_app_store_key_is_key_error factsNoStoreKey [downloadR]
    (List.cons_ne_nil _ _) rfl

/-- C1: for every facts containing `app_name` and passing the
preflight, `generate_recipes` reaches the call
`build_recipes(facts, preferred, prefs, recipe_dest_dir)` - four
positional arguments against the three declared parameters of
`build_recipes` - and therefore fails with a TypeError instead of
running `build_recipes`; no generation rule runs and no recipe is ever
produced through `generate_recipes`. -/
theorem C1_generate_recipes_raises_type_error
    (path_exists : String → Bool) (repo_list_out : String)
    (facts : Facts) (prefs : Prefs) (n : String)
    (h1 : facts.app_name = some n)
    (h2 : raise_if_recipes_cannot_be_generated facts (preferredOf facts) =
      Except.ok ()) :
    generate_recipes path_exists repo_list_out facts prefs =
      Except.error (PyErr.typeError msg_arity) := by
  simp only [generate_recipes, h1, create_existing_recipe_list, ite_self, h2]
  rfl

/-- Facts whose recipes list is the full default catalog, so that the
preflight passes: used to witness C1. -/
def factsWithCatalog : Facts :=
  {factsZip with recipes := default_recipes.map RecipesEntry.robj}

/-- Witness for C1: concrete facts with `app_name` present and a
passing preflight. -/
theorem C1_generate_recipes_raises_type_error_witness :
    raise_if_recipes_cannot_be_generated factsWithCatalog
      (preferredOf factsWithCatalog) = Except.ok () ∧
    generate_recipes (fun _ => false) "" factsWithCatalog prefsA =
      Except.error (PyErr.typeError msg_arity) :=
  ⟨rfl, C1_generate_recipes_raises_type_error (fun _ => false) "" factsWithCatalog
    prefsA "Foo" rfl rfl⟩

/-- C5: for every facts describing a direct zip download (app name and
URL present, `download_filename` present, no Sparkle/GitHub/SourceForge
source, no user-agent, not from the App Store, and the empty codesign
defaults), the download rule produces exactly two steps: a
`URLDownloader` with `url = "%DOWNLOAD_URL%"` and `filename` equal to
the `download_filename` fact, then `EndOfCheckPhase`; no
`CodeSignatureVerifier` appears. -/
theorem C5_direct_url_download_process
    (facts : Facts) (prefs : Prefs) (recipe : Recipe) (n u fn : String)
    (h_ifas : facts.is_from_app_store = some false)
    (h_name : facts.app_name = some n)
    (h_sp : facts.sparkle_feed = none)
    (h_gh : facts.github_repo = none)
    (h_sf : facts.sourceforge_id = none)
    (h_url : facts.download_url = some u)
    (h_fn : facts.download_filename = some fn)
    (h_fmt : facts.download_format = some "zip")
    (h_ua : facts.user_agent = none)
    (h_cr : facts.codesign_reqs = some "")
    (h_ca : facts.codesign_authorities = some [])
    (h_proc : recipe.keys.Process = []) :
    ∃ facts' recipe',
      generate_download_recipe facts prefs recipe = Except.ok (facts', recipe') ∧
      recipe'.keys.Process =
        [{Processor := "URLDownloader",
          Arguments := some [("url", Value.str "%DOWNLOAD_URL%"),
                             ("filename", Value.str fn)]},
         {Processor := "EndOfCheckPhase"}] ∧
      "CodeSignatureVerifier" ∉ recipe'.keys.Process.map (fun s => s.Processor) := by
  simp only [generate_download_recipe, h_ifas, h_name, h_sp, h_gh, h_sf, h_url,
    h_fn, h_fmt, h_ua, h_cr, h_ca, Option.getD_some, ne_eq, not_true, ite_false,
    List.length_nil, gt_iff_lt, lt_self_iff_false, if_false]
  refine ⟨facts, _, rfl, ?_, ?_⟩
  · simp [h_proc]
  · simp [h_proc]

/-- Witness for C5 on the concrete zip-download facts. -/
theorem C5_direct_url_download_process_witness :
    ∃ facts' recipe',
      generate_download_recipe factsZip prefsA downloadR =
        Except.ok (facts', recipe') ∧
      recipe'.keys.Process =
        [{Processor := "URLDownloader",
          Arguments := some [("url", Value.str "%DOWNLOAD_URL%"),
                             ("filename", Value.str "Foo.zip")]},
         {Processor := "EndOfCheckPhase"}] ∧
      "CodeSignatureVerifier" ∉ recipe'.keys.Process.map (fun s => s.Processor) :=
  C5_direct_url_download_process factsZip prefsA downloadR "Foo"
    "https://example.com/Foo.zip" "Foo.zip"
    rfl rfl rfl rfl rfl rfl rfl rfl rfl rfl rfl rfl

/-- Facts for a Sparkle-feed zip download of the app Foo. -/
def factsSparkle : Facts :=
  { app_name := some "Foo", sparkle_feed := some "https://example.com/feed.xml",
    download_format := some "zip", is_from_app_store := some false,
    codesign_reqs := some "", codesign_authorities := some [],
    version_key := some "CFBundleShortVersionString",
    app_name_key := some "%NAME%" }

/-- C6 counterexample: on the scenario facts the second step's filename
argument is the literal placeholder string `%NAME%-%version%.zip`, not
`Foo-%version%.zip` - the engine never substitutes the app name into
the filename; it only seeds `Input.NAME`. -/
theorem C6_counterexample_filename_is_placeholder :
    process_of (generate_download_recipe factsSparkle prefsA downloadR) =
      [{Processor := "SparkleUpdateInfoProvider",
        Arguments := some [("appcast_url", Value.str "%SPARKLE_FEED_URL%")]},
       {Processor := "URLDownloader",
        Arguments := some [("filename", Value.str "%NAME%-%version%.zip")]},
       {Processor := "EndOfCheckPhase"}] ∧
    ("%NAME%-%version%.zip" : String) ≠ "Foo-%version%.zip" :=
  ⟨rfl, by decide⟩

/-- C6 as amended: for every facts with `app_name = "Foo"`, a Sparkle
feed, zip format, no download URL, no user-agent, not from the App
Store and empty codesign facts, the download Process is exactly a
`SparkleUpdateInfoProvider` step with appcast URL `%SPARKLE_FEED_URL%`,
then a `URLDownloader` whose filename argument is the placeholder
pattern `%NAME%-%version%.zip` (which the downstream engine resolves to
`Foo-%version%.zip` via `Input.NAME`), then `EndOfCheckPhase`. -/
theorem C6_sparkle_download_process
    (facts : Facts) (prefs : Prefs) (recipe : Recipe) (s : String)
    (h_ifas : facts.is_from_app_store = some false)
    (h_name : facts.app_name = some "Foo")
    (h_sp : facts.sparkle_feed = some s)
    (h_fmt : facts.download_format = some "zip")
    (h_url : facts.download_url = none)
    (h_ua : facts.user_agent = none)
    (h_cr : facts.codesign_reqs = some "")
    (h_ca : facts.codesign_authorities = some [])
    (h_proc : recipe.keys.Process = []) :
    ∃ facts' recipe',
      generate_download_recipe facts prefs recipe = Except.ok (facts', recipe') ∧
      recipe'.keys.Process =
        [{Processor := "SparkleUpdateInfoProvider",
          Arguments := some [("appcast_url", Value.str "%SPARKLE_FEED_URL%")]},
         {Processor := "URLDownloader",
          Arguments := some [("filename", Value.str "%NAME%-%version%.zip")]},
         {Processor := "EndOfCheckPhase"}] := by
  simp only [generate_download_recipe, h_ifas, h_name, h_sp, h_fmt, h_url, h_ua,
    h_cr, h_ca, Option.getD_some, ne_eq, not_true, ite_false, List.length_nil,
    gt_iff_lt, lt_self_iff_false, if_false]
  refine ⟨facts, _, rfl, ?_⟩
  simp [h_proc]

/-- Witness for C6 as amended on the concrete Sparkle facts. -/
theorem C6_sparkle_download_process_witness :
    ∃ facts' recipe',
      generate_download_recipe factsSparkle prefsA downloadR =
        Except.ok (facts', recipe') ∧
      recipe'.keys.Process =
        [{Processor := "SparkleUpdateInfoProvider",
          Arguments := some [("appcast_url", Value.str "%SPARKLE_FEED_URL%")]},
         {Processor := "URLDownloader",
          Arguments := some [("filename", Value.str "%NAME%-%version%.zip")]},
         {Processor := "EndOfCheckPhase"}] :=
  C6_sparkle_download_process factsSparkle prefsA downloadR
    "https://example.com/feed.xml" rfl rfl rfl rfl rfl rfl rfl rfl rfl

/-- The `EndOfCheckPhase` step. -/
def eocStep : ProcStep := {Processor := "EndOfCheckPhase"}

/-- C7: for every facts with dmg format, a non-empty codesign
requirement, version key `CFBundleShortVersionString` and no
Sparkle-supplied version, the download Process ends with a
`CodeSignatureVerifier` immediately followed by an `AppDmgVersioner`:
the versioner is the last step and occurs after, never before, the
verifier (neither processor occurs earlier in the list). -/
theorem C7_dmg_signed_ends_with_verifier_then_versioner
    (facts : Facts) (prefs : Prefs) (recipe : Recipe) (n k r : String)
    (h_ifas : facts.is_from_app_store = some false)
    (h_name : facts.app_name = some n)
    (h_ank : facts.app_name_key = some k)
    (h_cr : facts.codesign_reqs = some r)
    (h_r : r ≠ "")
    (h_fmt : facts.download_format = some "dmg")
    (h_spv : facts.sparkle_provides_version.getD false = false)
    (h_vk : facts.version_key = some "CFBundleShortVersionString")
    (h_fn : facts.download_url.isSome → facts.download_filename.isSome)
    (h_proc : recipe.keys.Process = []) :
    ∃ (pre : List ProcStep) (args : List (String × Value))
      (facts' : Facts) (recipe' : Recipe),
      generate_download_recipe facts prefs recipe = Except.ok (facts', recipe') ∧
      recipe'.keys.Process = pre ++
        [{Processor := "CodeSignatureVerifier", Arguments := some args},
         {Processor := "AppDmgVersioner",
          Arguments := some [("dmg_path", Value.str "%pathname%")]}] ∧
      "AppDmgVersioner" ∉ pre.map (fun s => s.Processor) ∧
      "CodeSignatureVerifier" ∉ pre.map (fun s => s.Processor) := by
  have himg : "dmg" ∈ SUPPORTED_IMAGE_FORMATS := by decide
  cases hsp : facts.sparkle_feed with
  | some feed =>
    cases hua : facts.user_agent with
    | some ua =>
      simp only [generate_download_recipe, h_ifas, h_name, hsp, hua, h_fmt,
        h_cr, h_ank, Option.getD_some, h_r, ne_eq, not_false_iff, if_true,
        himg, h_spv, h_vk, if_pos]
      refine ⟨[{Processor := "SparkleUpdateInfoProvider",
                Arguments := some
                  [("appcast_request_headers",
                    Value.dict [("user-agent", Value.str ua)]),
                   ("appcast_url", Value.str "%SPARKLE_FEED_URL%")]},
               {Processor := "URLDownloader",
                Arguments := some
                  [("filename", Value.str "%NAME%-%version%.dmg"),
                   ("request_headers",
                    Value.dict [("user-agent", Value.str ua)])]},
               eocStep], [("input_path", Value.str ("%pathname%/" ++ k ++ ".app")),
          ("requirement", Value.str r)], facts, _, rfl, ?_,
        by simp [eocStep], by simp [eocStep]⟩
      simp [h_proc, eocStep]
    | none =>
      simp only [generate_download_recipe, h_ifas, h_name, hsp, hua, h_fmt,
        h_cr, h_ank, Option.getD_some, h_r, ne_eq, not_false_iff, if_true,
        himg, h_spv, h_vk, if_pos]
      refine ⟨[{Processor := "SparkleUpdateInfoProvider",
                Arguments := some [("appcast_url", Value.str "%SPARKLE_FEED_URL%")]},
               {Processor := "URLDownloader",
                Arguments := some
                  [("filename", Value.str "%NAME%-%version%.dmg")]},
               eocStep], [("input_path", Value.str ("%pathname%/" ++ k ++ ".app")),
          ("requirement", Value.str r)], facts, _, rfl, ?_,
        by simp [eocStep], by simp [eocStep]⟩
      simp [h_proc, eocStep]
  | none =>
    cases hgh : facts.github_repo with
    | some gh =>
      simp only [generate_download_recipe, h_ifas, h_name, hsp, hgh, h_fmt,
        h_cr, h_ank, Option.getD_some, h_r, ne_eq, not_false_iff, if_true,
        himg, h_spv, h_vk, if_pos]
      refine ⟨[{Processor := "GitHubReleasesInfoProvider",
                Arguments := some [("github_repo", Value.str "%GITHUB_REPO%")]},
               {Processor := "URLDownloader",
                Arguments := some
                  [("filename", Value.str "%NAME%-%version%.dmg")]},
               eocStep], [("input_path", Value.str ("%pathname%/" ++ k ++ ".app")),
          ("requirement", Value.str r)], facts, _, rfl, ?_,
        by simp [eocStep], by simp [eocStep]⟩
      simp [h_proc, eocStep]
    | none =>
      cases hsf : facts.sourceforge_id with
      | some sfid =>
        simp only [generate_download_recipe, h_ifas, h_name, hsp, hgh, hsf,
          h_fmt, h_cr, h_ank, Option.getD_some, h_r, ne_eq, not_false_iff,
          if_true, himg, h_spv, h_vk, if_pos]
        refine ⟨[{Processor := "SourceForgeURLProvider",
                  Arguments := some
                    [("SOURCEFORGE_FILE_PATTERN", Value.str "\\.dmg"),
                     ("SOURCEFORGE_PROJECT_ID", Value.str sfid)]},
                 {Processor := "URLDownloader",
                  Arguments := some [("filename", Value.str "%NAME%.dmg")]},
                 eocStep], [("input_path", Value.str ("%pathname%/" ++ k ++ ".app")),
          ("requirement", Value.str r)], facts, _, rfl, ?_,
        by simp [eocStep], by simp [eocStep]⟩
        simp [h_proc, eocStep]
      | none =>
        cases hurl : facts.download_url with
        | some u =>
          have hfn : facts.download_filename.isSome := h_fn (by simp [hurl])
          obtain ⟨fn, hfn'⟩ := Option.isSome_iff_exists.mp hfn
          cases hua : facts.user_agent with
          | some ua =>
            simp only [generate_download_recipe, h_ifas, h_name, hsp, hgh, hsf,
              hurl, hfn', hua, h_fmt, h_cr, h_ank, Option.getD_some, h_r,
              ne_eq, not_false_iff, if_true, himg, h_spv, h_vk, if_pos]
            refine ⟨[{Processor := "URLDownloader",
                      Arguments := some
                        [("url", Value.str "%DOWNLOAD_URL%"),
                         ("filename", Value.str fn),
                         ("request_headers",
                          Value.dict [("user-agent", Value.str ua)])]},
                     eocStep], [("input_path", Value.str ("%pathname%/" ++ k ++ ".app")),
          ("requirement", Value.str r)], facts, _, rfl, ?_,
        by simp [eocStep], by simp [eocStep]⟩
            simp [h_proc, eocStep]
          | none =>
            simp only [generate_download_recipe, h_ifas, h_name, hsp, hgh, hsf,
              hurl, hfn', hua, h_fmt, h_cr, h_ank, Option.getD_some, h_r,
              ne_eq, not_false_iff, if_true, himg, h_spv, h_vk, if_pos]
            refine ⟨[{Processor := "URLDownloader",
                      Arguments := some
                        [("url", Value.str "%DOWNLOAD_URL%"),
                         ("filename", Value.str fn)]},
                     eocStep], [("input_path", Value.str ("%pathname%/" ++ k ++ ".app")),
          ("requirement", Value.str r)], facts, _, rfl, ?_,
        by simp [eocStep], by simp [eocStep]⟩
            simp [h_proc, eocStep]
        | none =>
          simp only [generate_download_recipe, h_ifas, h_name, hsp, hgh, hsf,
            hurl, h_fmt, h_cr, h_ank, Option.getD_some, h_r, ne_eq,
            not_false_iff, if_true, himg, h_spv, h_vk, if_pos]
          refine ⟨[eocStep], [("input_path", Value.str ("%pathname%/" ++ k ++ ".app")),
          ("requirement", Value.str r)], facts, _, rfl, ?_,
        by simp [eocStep], by simp [eocStep]⟩
          simp [h_proc, eocStep]

/-- Facts for a signed dmg download (codesign requirement present). -/
def factsDmgSigned : Facts :=
  { app_name := some "Foo", download_url := some "https://example.com/Foo.dmg",
    download_filename := some "Foo.dmg", download_format := some "dmg",
    is_from_app_store := some false, codesign_reqs := some "identifier Foo",
    codesign_authorities := some [], version_key := some "CFBundleShortVersionString",
    app_name_key := some "%NAME%" }

/-- Witness for C7 on the concrete signed dmg facts. -/
theorem C7_dmg_signed_ends_with_verifier_then_versioner_witness :
    ∃ (pre : List ProcStep) (args : List (String × Value))
      (facts' : Facts) (recipe' : Recipe),
      generate_download_recipe factsDmgSigned prefsA downloadR =
        Except.ok (facts', recipe') ∧
      recipe'.keys.Process = pre ++
        [{Processor := "CodeSignatureVerifier", Arguments := some args},
         {Processor := "AppDmgVersioner",
          Arguments := some [("dmg_path", Value.str "%pathname%")]}] ∧
      "AppDmgVersioner" ∉ pre.map (fun s => s.Processor) ∧
      "CodeSignatureVerifier" ∉ pre.map (fun s => s.Processor) :=
  C7_dmg_signed_ends_with_verifier_then_versioner factsDmgSigned prefsA
    downloadR "Foo" "%NAME%" "identifier Foo" rfl rfl rfl rfl (by decide)
    rfl rfl rfl (fun _ => rfl) rfl

/-- Facts that let every base generation rule run to completion:
bundle id present, dmg download, unsigned, short-version key. -/
def factsFull (n : String) : Facts :=
  { app_name := some n, bundle_id := some "com.example.foo",
    is_from_app_store := some false, download_format := some "dmg",
    codesign_reqs := some "", codesign_authorities := some [],
    version_key := some "CFBundleShortVersionString",
    blocking_applications := some [], app_name_key := some "%NAME%",
    download_url := some "https://example.com/app.dmg",
    download_filename := some "app.dmg" }

/-- C9 counterexample: with the app name `Foo Bar`, the absolute rule
sets `ParentRecipe` to `com.test.pkg.Foo Bar` - the app name kept
verbatim - while the Identifier the dispatcher computes for the pkg
recipe of the same run is `com.test.pkg.FooBar` (spaces removed), so
the two strings differ and the chain is broken. -/
theorem C9_counterexample_absolute_parent_keeps_spaces :
    parent_of (generate_absolute_recipe "" (factsFull "Foo Bar") prefsA absoluteR) =
      some "com.test.pkg.Foo Bar" ∧
    identifier_for prefsA "pkg" "Foo Bar" = "com.test.pkg.FooBar" ∧
    ("com.test.pkg.Foo Bar" : String) ≠ "com.test.pkg.FooBar" :=
  ⟨rfl, rfl, by decide⟩

/-- C9 as amended: the munki, pkg and install rules chain
`ParentRecipe` to the dispatcher-computed download identifier and the
jss rule to the pkg identifier (app name with spaces removed, matching
`Identifier`); the absolute, sccm and ds rules chain to
`<prefix>.pkg.<app name>` and the filewave rule to
`<prefix>.download.<app name>` with the app name kept verbatim, which
coincides with the parent Identifier exactly when the app name
contains no space (witnessed here at the space-free name `Foo`). -/
theorem C9_parent_recipe_identifiers (n : String) :
    parent_of (generate_munki_recipe (factsFull n) prefsA munkiR) =
      some (identifier_for prefsA "download" n) ∧
    parent_of (generate_pkg_recipe (factsFull n) prefsA pkgR) =
      some (identifier_for prefsA "download" n) ∧
    parent_of (generate_install_recipe (factsFull n) prefsA installR) =
      some (identifier_for prefsA "download" n) ∧
    parent_of (generate_jss_recipe (fun _ => true) (factsFull n) prefsA jssR) =
      some (identifier_for prefsA "pkg" n) ∧
    parent_of (generate_absolute_recipe "" (factsFull n) prefsA absoluteR) =
      some ("com.test.pkg." ++ n) ∧
    parent_of (generate_sccm_recipe "" (factsFull n) prefsA sccmR) =
      some ("com.test.pkg." ++ n) ∧
    parent_of (generate_ds_recipe (factsFull n) prefsA dsR) =
      some ("com.test.pkg." ++ n) ∧
    parent_of (generate_filewave_recipe "" (factsFull n) prefsA filewaveR) =
      some ("com.test.download." ++ n) ∧
    parent_of (generate_absolute_recipe "" (factsFull "Foo") prefsA absoluteR) =
      some (identifier_for prefsA "pkg" "Foo") ∧
    parent_of (generate_sccm_recipe "" (factsFull "Foo") prefsA sccmR) =
      some (identifier_for prefsA "pkg" "Foo") ∧
    parent_of (generate_ds_recipe (factsFull "Foo") prefsA dsR) =
      some (identifier_for prefsA "pkg" "Foo") ∧
    parent_of (generate_filewave_recipe "" (factsFull "Foo") prefsA filewaveR) =
      some (identifier_for prefsA "download" "Foo") :=
  ⟨rfl, rfl, rfl, rfl, rfl, rfl, rfl, rfl, rfl, rfl, rfl, rfl⟩

/-- Projection of a `build_recipes` run to the final
`RecipeCreateCount`. -/
def run_count (e : Except PyErr (Facts × Prefs × List (String × RecipeKeys))) :
    Option Nat :=
  match e with
  | Except.ok (_, p, _) => some p.RecipeCreateCount
  | Except.error _ => none

/-- Projection of a `build_recipes` run to the writes it performed. -/
def run_writes (e : Except PyErr (Facts × Prefs × List (String × RecipeKeys))) :
    Option (List (String × RecipeKeys)) :=
  match e with
  | Except.ok (_, _, w) => some w
  | Except.error _ => none

/-- A filesystem on which no destination path exists yet. -/
def no_path_exists : String → Bool := fun _ => false

/-- Facts driving a dispatcher loop over a single jss recipe that gets
skipped (no `bundle_id`), with a fresh destination directory. -/
def factsLoop : Facts := {factsZip with recipe_dest_dir := some "/out"}

/-- C8 counterexample: running the dispatcher loop over one jss recipe
whose facts lack `bundle_id` (so the rule skips and the Process list
stays empty, and `Recipe.write` serializes nothing), on a filesystem
where the destination path does not exist, still increments
`RecipeCreateCount` from 0 to 1: the counter is incremented although no
recipe was written. -/
theorem C8_counterexample_increment_without_write :
    prefsA.RecipeCreateCount = 0 ∧
    run_count (build_recipes no_path_exists "" factsLoop [jssR] prefsA) =
      some 1 ∧
    run_writes (build_recipes no_path_exists "" factsLoop [jssR] prefsA) =
      some [] :=
  ⟨rfl, rfl, rfl⟩

/-- C8 as amended: in each iteration of the dispatcher loop the
preference counter is incremented exactly when the destination path did
not previously exist - whether or not the recipe is then serialized -
no other preference field is mutated, and the write happens exactly
when the finished recipe has a non-empty Process list. -/
theorem C8_loop_increments_iff_path_new
    (path_exists : String → Bool) (repo_list_out dest_dir : String)
    (facts : Facts) (prefs : Prefs) (recipe : Recipe) (res : BuildOneResult)
    (h : build_one path_exists repo_list_out dest_dir facts prefs recipe =
      Except.ok res) :
    res.prefs = {prefs with RecipeCreateCount := res.prefs.RecipeCreateCount} ∧
    res.prefs.RecipeCreateCount =
      prefs.RecipeCreateCount + (if path_exists res.dest_path then 0 else 1) ∧
    res.written =
      (if res.recipe.keys.Process.length > 0
       then some (res.dest_path, res.recipe.keys) else none) := by
  unfold build_one at h
  repeat' (first | split at h | dsimp only [] at h)
  all_goals first
    | exact Except.noConfusion h
    | (injection h with h; subst h;
       refine ⟨rfl, ?_, rfl⟩;
       simp_all [Recipe.write])

/-- The concrete outcome of the dispatcher loop body on the skipped jss
recipe of `factsLoop`. -/
def jssSkipFacts : Facts :=
  { factsLoop with
    app_name_key := some "%NAME%",
    warnings := [msg_skip_bundle_id "jss"],
    recipes := [RecipesEntry.path "/out/Foo.jss.recipe"] }

def jssSkipRecipe : Recipe :=
  { jssR with
    filename := "Foo.jss.recipe",
    keys := { jssR.keys with
              Identifier := "com.test.jss.Foo",
              Input := [("NAME", Value.str "Foo")] } }

def jssSkipResult : BuildOneResult :=
  { facts := jssSkipFacts,
    prefs := {prefsA with RecipeCreateCount := 1},
    recipe := jssSkipRecipe,
    dest_path := "/out/Foo.jss.recipe",
    written := none }

/-- Witness for C8 as amended, at the concrete skipped jss loop
iteration. -/
theorem C8_loop_increments_iff_path_new_witness :
    jssSkipResult.prefs =
      {prefsA with RecipeCreateCount := jssSkipResult.prefs.RecipeCreateCount} ∧
    jssSkipResult.prefs.RecipeCreateCount =
      prefsA.RecipeCreateCount +
        (if no_path_exists jssSkipResult.dest_path then 0 else 1) ∧
    jssSkipResult.written =
      (if jssSkipResult.recipe.keys.Process.length > 0
       then some (jssSkipResult.dest_path, jssSkipResult.recipe.keys)
       else none) :=
  C8_loop_increments_iff_path_new no_path_exists "" "/out" factsLoop prefsA
    jssR jssSkipResult rfl
